import Mathlib

/-!
Verification development for the jscharting-angularjs wrapper.

This file shallowly embeds the change-detection / update-scheduling layer of
the repository: the `jscPerformance` service (`computeHash`, `debounce`), the
configuration merge entry points (`ConfigBuilder.extend`,
`jscConfig.mergeWithDefaults`, the directives' axis-config merges — all of
which call the host framework's `angular.merge`), the `jscChart` directive's
link-function state machine (init / pending update / debounced watchers /
teardown), the `jscChartFactory` registry, the `jscEventService` event
bridge, and the `buildConfig` functions of the specialized directives
(`jscGantt`, `jscOrgChart`, `jscCalendar`, `jscMap`).

JavaScript values are modelled by the inductive type `JVal`.  Structures that
cannot be expressed as finite trees (cyclic objects) are modelled by a
dedicated constructor `cyclic` whose `JSON.stringify` throws and whose
JS string conversion is "[object Object]", matching the behaviour of a plain
cyclic object in the engine.  Functions are modelled as opaque tagged values.
-/

/-- Model of a JavaScript value as passed around by the wrapper.  `num` is
restricted to integers (no claim depends on float formatting), `func` is an
opaque function value carrying only a tag, and `cyclic` stands for an object
participating in a reference cycle: `JSON.stringify` throws a `TypeError` on
it and `String(...)` renders it as "[object Object]". -/
inductive JVal : Type where
  | jsNull : JVal
  | undef : JVal
  | bool (b : Bool) : JVal
  | num (n : Int) : JVal
  | str (s : String) : JVal
  | func (tag : String) : JVal
  | arr (elems : List JVal) : JVal
  | obj (fields : List (String × JVal)) : JVal
  | cyclic (tag : String) : JVal
deriving Repr

mutual
/-- Structural (boolean) equality on modelled JS values. -/
def JVal.beq : JVal → JVal → Bool
  | .jsNull, .jsNull => true
  | .undef, .undef => true
  | .bool a, .bool b => a == b
  | .num a, .num b => a == b
  | .str a, .str b => a == b
  | .func a, .func b => a == b
  | .arr a, .arr b => JVal.beqList a b
  | .obj a, .obj b => JVal.beqFields a b
  | .cyclic a, .cyclic b => a == b
  | _, _ => false
termination_by a _ => sizeOf a

/-- Elementwise equality of value lists. -/
def JVal.beqList : List JVal → List JVal → Bool
  | [], [] => true
  | a :: as, b :: bs => JVal.beq a b && JVal.beqList as bs
  | _, _ => false
termination_by a _ => sizeOf a

/-- Fieldwise equality of field lists. -/
def JVal.beqFields : List (String × JVal) → List (String × JVal) → Bool
  | [], [] => true
  | (k, v) :: as, (k2, v2) :: bs => k == k2 && JVal.beq v v2 && JVal.beqFields as bs
  | _, _ => false
termination_by a _ => sizeOf a
end

mutual
theorem JVal.beq_iff : ∀ (a b : JVal), (JVal.beq a b = true) ↔ a = b
  | .jsNull, b => by cases b <;> simp [JVal.beq]
  | .undef, b => by cases b <;> simp [JVal.beq]
  | .bool a, b => by cases b <;> simp [JVal.beq]
  | .num a, b => by cases b <;> simp [JVal.beq]
  | .str a, b => by cases b <;> simp [JVal.beq]
  | .func a, b => by cases b <;> simp [JVal.beq]
  | .arr a, b => by
    cases b <;> simp [JVal.beq]
    exact JVal.beqList_iff a _
  | .obj a, b => by
    cases b <;> simp [JVal.beq]
    exact JVal.beqFields_iff a _
  | .cyclic a, b => by cases b <;> simp [JVal.beq]
termination_by a _ => sizeOf a

theorem JVal.beqList_iff : ∀ (a b : List JVal), (JVal.beqList a b = true) ↔ a = b
  | [], b => by cases b <;> simp [JVal.beqList]
  | x :: xs, b => by
    cases b with
    | nil => simp [JVal.beqList]
    | cons y ys =>
      simp [JVal.beqList, JVal.beq_iff x y, JVal.beqList_iff xs ys]
termination_by a _ => sizeOf a

theorem JVal.beqFields_iff : ∀ (a b : List (String × JVal)),
    (JVal.beqFields a b = true) ↔ a = b
  | [], b => by cases b <;> simp [JVal.beqFields]
  | (k, v) :: xs, b => by
    cases b with
    | nil => simp [JVal.beqFields]
    | cons y ys =>
      obtain ⟨k2, v2⟩ := y
      simp [JVal.beqFields, JVal.beq_iff v v2, JVal.beqFields_iff xs ys, and_assoc]
termination_by a _ => sizeOf a
end

instance : DecidableEq JVal := fun a b =>
  decidable_of_iff (JVal.beq a b = true) (JVal.beq_iff a b)

/-- JavaScript truthiness of a value (`if (v)`).  `NaN` is not modelled
(numbers are integers here). -/
def jsTruthy : JVal → Bool
  | .jsNull => false
  | .undef => false
  | .bool b => b
  | .num n => n != 0
  | .str s => s ≠ ""
  | .func _ => true
  | .arr _ => true
  | .obj _ => true
  | .cyclic _ => true

/-- AngularJS `isObject`: `typeof value === 'object' && value !== null`.
Arrays and (cyclic) objects qualify; functions and `null` do not. -/
def isObjectJS : JVal → Bool
  | .arr _ => true
  | .obj _ => true
  | .cyclic _ => true
  | _ => false

/-- `typeof v === 'object'` — like `isObjectJS` but `null` also has
typeof 'object'. -/
def typeofIsObject : JVal → Bool
  | .jsNull => true
  | .arr _ => true
  | .obj _ => true
  | .cyclic _ => true
  | _ => false

/-- The decimal digit character for `d < 10` (only ever applied to `n % 10`). -/
def digitChar (d : Nat) : Char :=
  match d with
  | 0 => '0'
  | 1 => '1'
  | 2 => '2'
  | 3 => '3'
  | 4 => '4'
  | 5 => '5'
  | 6 => '6'
  | 7 => '7'
  | 8 => '8'
  | _ => '9'

/-- Digits of `n` in base 10 (most significant first), prepended to `acc`. -/
def natDecimalAux (n : Nat) (acc : List Char) : List Char :=
  let d := digitChar (n % 10)
  if _h : n < 10 then d :: acc
  else natDecimalAux (n / 10) (d :: acc)
termination_by n
decreasing_by
  exact Nat.div_lt_self (by omega) (by omega)

/-- Decimal rendering of a natural number, as produced by JS `String(n)`. -/
def natDecimal (n : Nat) : String := String.mk (natDecimalAux n [])

/-- Decimal rendering of an integer, as produced by JS `String(n)` for an
integral number. -/
def intDecimal (n : Int) : String :=
  if n < 0 then "-" ++ natDecimal n.natAbs else natDecimal n.toNat

/-- JSON string escaping for one character (the escapes JSON.stringify
emits for the characters that occur in this development; exotic control
characters are passed through unchanged). -/
def jsonEscapeChar (c : Char) : List Char :=
  if c = '"' then ['\\', '"']
  else if c = '\\' then ['\\', '\\']
  else if c = '\n' then ['\\', 'n']
  else if c = '\t' then ['\\', 't']
  else if c = '\r' then ['\\', 'r']
  else [c]

/-- JSON quoting of a string literal, as `JSON.stringify` renders strings. -/
def jsonQuote (s : String) : String :=
  "\"" ++ String.mk (s.data.flatMap jsonEscapeChar) ++ "\""

/-- Joins rendered parts with commas (used by both `JSON.stringify` for
arrays/objects and `Array.prototype.join`). -/
def commaJoin : List String → String
  | [] => ""
  | [p] => p
  | p :: rest => p ++ "," ++ commaJoin rest

mutual
/-- JS `String(v)` conversion.  Arrays render as their elements joined by
commas (`Array.prototype.toString`), plain and cyclic objects render as
"[object Object]", and a function renders as its source text (modelled as
"function " followed by its tag). -/
def jsToString : JVal → String
  | .jsNull => "null"
  | .undef => "undefined"
  | .bool b => if b then "true" else "false"
  | .num n => intDecimal n
  | .str s => s
  | .func tag => "function " ++ tag
  | .arr es => jsArrJoin es
  | .obj _ => "[object Object]"
  | .cyclic _ => "[object Object]"
termination_by v => (sizeOf v, 0)

/-- `Array.prototype.join(",")` over the rendered elements. -/
def jsArrJoin : List JVal → String
  | [] => ""
  | [e] => jsElemString e
  | e :: rest => jsElemString e ++ "," ++ jsArrJoin rest
termination_by es => (sizeOf es, 2)

/-- One array element under `Array.prototype.join`: `null` and `undefined`
render as the empty string, everything else via `String(...)`. -/
def jsElemString : JVal → String
  | .jsNull => ""
  | .undef => ""
  | e => jsToString e
termination_by e => (sizeOf e, 1)
end

/-- Result of `JSON.stringify` on one value: it can throw (cyclic input),
return `undefined` (functions and `undefined`), or return JSON text. -/
inductive SRes : Type where
  | throwRes : SRes
  | undefRes : SRes
  | okRes (s : String) : SRes
deriving Repr, DecidableEq

mutual
/-- Model of `JSON.stringify(v)`.  Cyclic values throw; functions and
`undefined` produce no JSON (they are omitted inside objects and rendered
as `null` inside arrays). -/
def stringifyAux : JVal → SRes
  | .jsNull => .okRes "null"
  | .undef => .undefRes
  | .bool b => .okRes (if b then "true" else "false")
  | .num n => .okRes (intDecimal n)
  | .str s => .okRes (jsonQuote s)
  | .func _ => .undefRes
  | .arr es =>
    match stringifyArr es with
    | none => .throwRes
    | some parts => .okRes ("[" ++ commaJoin parts ++ "]")
  | .obj fs =>
    match stringifyFields fs with
    | none => .throwRes
    | some parts => .okRes ("\x7b" ++ commaJoin parts ++ "\x7d")
  | .cyclic _ => .throwRes
termination_by v => (sizeOf v, 1)

/-- JSON rendering of array elements; `none` propagates a throw. -/
def stringifyArr : List JVal → Option (List String)
  | [] => some []
  | e :: rest =>
    match stringifyAux e with
    | .throwRes => none
    | .undefRes => (stringifyArr rest).map (fun ps => "null" :: ps)
    | .okRes s => (stringifyArr rest).map (fun ps => s :: ps)
termination_by es => (sizeOf es, 0)

/-- JSON rendering of object fields; fields whose value stringifies to
`undefined` are omitted; `none` propagates a throw. -/
def stringifyFields : List (String × JVal) → Option (List String)
  | [] => some []
  | (k, v) :: rest =>
    match stringifyAux v with
    | .throwRes => none
    | .undefRes => stringifyFields rest
    | .okRes s => (stringifyFields rest).map (fun ps => (jsonQuote k ++ ":" ++ s) :: ps)
termination_by fs => (sizeOf fs, 0)
end

/-- Model of `jscPerformance.computeHash` (src/unnamed/part_005, lines
93‑105): `null`/`undefined` hash to "null"; non-objects hash to
`String(obj)`; objects hash to `JSON.stringify(obj)`, falling back to
`String(obj)` when stringification throws. -/
def computeHash (v : JVal) : String :=
  match v with
  | .jsNull => "null"
  | .undef => "null"
  | _ =>
    if typeofIsObject v then
      match stringifyAux v with
      | .okRes s => s
      | _ => jsToString v
    else jsToString v

/-- Sets key `k` in an association list, replacing an existing binding in
place (JS objects keep the original insertion position of an overwritten
key) or appending a new one at the end. -/
def setAssoc : List (String × JVal) → String → JVal → List (String × JVal)
  | [], k, v => [(k, v)]
  | (k0, v0) :: rest, k, v =>
    if k0 = k then (k0, v) :: rest else (k0, v0) :: setAssoc rest k v

/-- Writes index `i` of a JS array.  Writing past the end extends the array,
with the skipped positions becoming holes (modelled as `undef`; holes and
`undefined` render identically under both `JSON.stringify` and `join`). -/
def listSetPad : List JVal → Nat → JVal → List JVal
  | [], 0, v => [v]
  | [], n + 1, v => .undef :: listSetPad [] n v
  | _ :: rest, 0, v => v :: rest
  | e :: rest, n + 1, v => e :: listSetPad rest n v

/-- Parses a property key as an array index: a nonempty all-digit string
(leading zeros are accepted here although JS treats "01" as a plain
property; no modelled code path produces such a key). -/
def parseIndex (s : String) : Option Nat :=
  if s.data ≠ [] ∧ s.data.all Char.isDigit then
    some (s.data.foldl (fun n c => n * 10 + (c.toNat - 48)) 0)
  else none

/-- JS property read `c[k]` with a string key: `undefined` on a missing key
or a primitive receiver.  On an array a numeric string indexes the
elements. -/
def getField (c : JVal) (k : String) : JVal :=
  match c with
  | .obj fs => ((fs.lookup k).getD .undef)
  | .arr es =>
    match parseIndex k with
    | some i => es.getD i .undef
    | none => .undef
  | _ => (JVal.undef)

/-- JS property write `c[k] = v` with a string key.  Writing a non-numeric
key on an array (an expando property) is not representable in `JVal` and
leaves the array unchanged — no code path modelled here exercises it.
Property writes on primitives are dropped (in strict mode they throw; no
modelled claim reaches that case). -/
def setField (c : JVal) (k : String) (v : JVal) : JVal :=
  match c with
  | .obj fs => .obj (setAssoc fs k v)
  | .arr es =>
    match parseIndex k with
    | some i => .arr (listSetPad es i v)
    | none => c
  | _ => c

/-- JS property read `c[i]` with a numeric index (how `angular.merge`'s
`Object.keys` loop addresses a source array's elements).  On an object the
index addresses the field named by its decimal rendering. -/
def getPropIdx (c : JVal) (i : Nat) : JVal :=
  match c with
  | .arr es => es.getD i .undef
  | .obj fs => ((fs.lookup (natDecimal i)).getD .undef)
  | _ => (JVal.undef)

/-- JS property write `c[i] = v` with a numeric index. -/
def setPropIdx (c : JVal) (i : Nat) (v : JVal) : JVal :=
  match c with
  | .arr es => .arr (listSetPad es i v)
  | .obj fs => .obj (setAssoc fs (natDecimal i) v)
  | _ => c

/-- The fresh destination `angular.merge` substitutes when the existing
destination value is not an object: `isArray(src) ? [] : {}`. -/
def emptyLike (s : JVal) : JVal :=
  match s with
  | .arr _ => .arr []
  | _ => .obj []

/-- `angular.merge`'s destination for recursing into one source property:
keep the current destination value if it is an object, else replace it by
an empty object/array shaped like the source
(`if (!isObject(dst[key])) dst[key] = isArray(src) ? [] : {}`). -/
def childBase (dcur : JVal) (s : JVal) : JVal :=
  if isObjectJS dcur then dcur else emptyLike s

mutual
/-- Model of AngularJS 1.8 `angular.merge(dst, src)` (`baseExtend` with
`deep = true`), the host-framework function used by `ConfigBuilder.extend`,
`jscConfig.mergeWithDefaults` and the directives' axis/mapping/calendar
config merges.  For every own key of `src`: an object-valued source property
is merged recursively into the existing destination value (which is kept
whenever it is itself an object — in particular an existing ARRAY is merged
into index by index, not replaced); any other value overwrites.  A
non-object, non-function `src` leaves `dst` unchanged.  Not modelled (no
`JVal` representation, unreachable in this development): the `Date`,
`RegExp` and DOM-node special cases, the `__proto__` guard, and the
`dst[key] !== src` reference-identity skip (merging a value into a
structurally equal destination is the identity, so skipping it changes
nothing). -/
def amerge : JVal → JVal → JVal
  | dst, .obj fs => amergeFields dst fs
  | dst, .arr es => amergeElems dst 0 es
  | dst, _ => dst
termination_by _ src => (sizeOf src, 0)

/-- Folds the object-source keys of `angular.merge` in order. -/
def amergeFields : JVal → List (String × JVal) → JVal
  | dst, [] => dst
  | dst, (k, s) :: rest =>
    let dst' :=
      if isObjectJS s then
        setField dst k (amerge (childBase (getField dst k) s) s)
      else setField dst k s
    amergeFields dst' rest
termination_by _ fs => (sizeOf fs, 1)

/-- Folds the array-source indices of `angular.merge` in order. -/
def amergeElems : JVal → Nat → List JVal → JVal
  | dst, _, [] => dst
  | dst, i, s :: rest =>
    let dst' :=
      if isObjectJS s then
        setPropIdx dst i (amerge (childBase (getPropIdx dst i) s) s)
      else setPropIdx dst i s
    amergeElems dst' (i + 1) rest
termination_by _ _ es => (sizeOf es, 1)
end

/-- Model of `ConfigBuilder.prototype.extend`
(src/src/core/config-builder.service.js, lines 393‑396):
`angular.merge(this.config, options)`; the builder's config becomes the
merge result. -/
def ConfigBuilder.extend (config options : JVal) : JVal := amerge config options

/-- Model of `jscConfig.mergeWithDefaults` (src/src/core/config.provider.js,
lines 170‑176): a copy of the provider defaults, with a truthy `config`
merged on top by `angular.merge` (`angular.copy` is the identity in this
pure model). -/
def mergeWithDefaults (defaults config : JVal) : JVal :=
  let result := defaults
  if jsTruthy config then amerge result config else result

/-- The `jscConfig` provider's initial defaults
(src/src/core/config.provider.js, lines 14‑19). -/
def providerDefaults : JVal :=
  .obj [("debug", .bool false), ("animation", .obj [("duration", .num 400)])]

mutual
/-- Modelled from the spec (§4.3, refinement comparison only; this is NOT a
translation of repository code): "Merging of nested objects is a deep merge
(child objects recursively combined; arrays are replaced wholesale, never
concatenated)".  Child objects are combined key by key; every non-object
override value — in particular every array — replaces the base value
wholesale. -/
def specDeepMerge : JVal → JVal → JVal
  | .obj bfs, .obj ofs => .obj (specMergeInto bfs ofs)
  | _, ov => ov
termination_by _ ov => (sizeOf ov, 0, 0)

/-- Folds the override fields of `specDeepMerge` in order. -/
def specMergeInto : List (String × JVal) → List (String × JVal) → List (String × JVal)
  | bfs, [] => bfs
  | bfs, (k, ov) :: rest => specMergeInto (specMergeField bfs k ov) rest
termination_by _ ofs => (sizeOf ofs, 1, 0)

/-- Merges one override field of `specDeepMerge` into the base fields. -/
def specMergeField : List (String × JVal) → String → JVal → List (String × JVal)
  | [], k, ov => [(k, ov)]
  | (k0, bv) :: bfs, k, ov =>
    if k0 = k then (k0, specDeepMerge bv ov) :: bfs
    else (k0, bv) :: specMergeField bfs k ov
termination_by bfs _ ov => (sizeOf ov, 1, sizeOf bfs)
end

/-- Truthiness of an AngularJS `@`-bound attribute value (`undefined` or a
string). -/
def strTruthy : Option String → Bool
  | some t => t ≠ ""
  | none => false

/-- Whether a value is the JS `undefined` (used for the source's
`!== undefined` guards, kept as a `Bool` so guards compute). -/
def isUndef : JVal → Bool
  | .undef => true
  | _ => false

/-- The idiom `x = x || {}`: keep a truthy value, else a fresh empty
object. -/
def orEmptyObj (v : JVal) : JVal := if jsTruthy v then v else .obj []

/-- JS strict inequality `a !== b` as used by the shallow watchers.
Primitives compare by value.  Operands of different types are unequal.  Two
object operands compare by reference, which a pure tree model cannot see;
they are treated as unequal (a shallow `$watch` only fires its listener on a
reference change, so the pair it passes is precisely a fresh reference).
This over-approximates triggering and never invents equality. -/
def jsStrictNe (a b : JVal) : Bool :=
  match a, b with
  | .jsNull, .jsNull => false
  | .undef, .undef => false
  | .bool x, .bool y => x != y
  | .num x, .num y => x != y
  | .str x, .str y => x != y
  | _, _ => true

namespace JscChart

/-- Presence of each scope event callback of the `jscChart` directive
(`&`-bindings; the link function only tests presence before wiring a
wrapper). -/
structure ChartEventFlags where
  onLoad : Bool := false
  onRedraw : Bool := false
  onClick : Bool := false
  onSelection : Bool := false
  onSelecting : Bool := false
  onZoomed : Bool := false
  onScrolled : Bool := false
  onMouseOver : Bool := false
  onMouseOut : Bool := false
  onPointSelectionChanged : Bool := false
  onSeriesSelectionChanged : Bool := false
  onBeforeExport : Bool := false
  onAfterExport : Bool := false
  onPointClick : Bool := false
  onPointMouseOver : Bool := false
  onPointMouseOut : Bool := false
  onPointSelect : Bool := false
  onPointUnselect : Bool := false
  onSeriesClick : Bool := false
  onSeriesMouseOver : Bool := false
  onSeriesMouseOut : Bool := false
  onSeriesShow : Bool := false
  onSeriesHide : Bool := false
  onLegendClick : Bool := false
  onLegendMouseOver : Bool := false
  onLegendMouseOut : Bool := false
  onAxisTickClick : Bool := false
  onAxisTickMouseOver : Bool := false
  onAxisTickMouseOut : Bool := false
deriving Repr, DecidableEq

/-- The `jscChart` directive's scope bindings read by its link function.
`@`-bindings are `Option String`; `<`-bindings are `JVal` with `.undef`
when absent. -/
structure ChartScope where
  options : JVal := .undef
  series : JVal := .undef
  muted : JVal := .undef
  type : Option String := none
  palette : JVal := .undef
  debug : JVal := .undef
  animation : JVal := .undef
  title : Option String := none
  legendPosition : Option String := none
  axisToZoom : Option String := none
  width : Option String := none
  height : Option String := none
  events : ChartEventFlags := {}
deriving Repr, DecidableEq

/-- Attaches one wrapper function under key `k` when the corresponding scope
callback is present (the wrappers themselves are opaque function values;
their deferred-invocation behaviour is modelled by the event bridge). -/
def setEventIf (b : Bool) (c : JVal) (k tag : String) : JVal :=
  if b then setField c k (.func tag) else c

/-- Model of the `jscChart` link function's `wireEvents(config)`
(src/src/core/chart.directive.js, lines 159‑401): attaches wrapper functions
for each present scope callback under `events`, `defaultPoint.events`,
`defaultSeries.events`, `legend.defaultEntry.events` and
`xAxis.defaultTick.events`. -/
def wireEvents (ev : ChartEventFlags) (config : JVal) : JVal :=
  let events := orEmptyObj (getField config "events")
  let events := setEventIf ev.onRedraw events "redraw" "jscChart.redraw"
  let events := setEventIf ev.onClick events "click" "jscChart.click"
  let events := setEventIf ev.onSelection events "selection" "jscChart.selection"
  let events := setEventIf ev.onSelecting events "selecting" "jscChart.selecting"
  let events := setEventIf ev.onZoomed events "zoomed" "jscChart.zoomed"
  let events := setEventIf ev.onScrolled events "scrolled" "jscChart.scrolled"
  let events := setEventIf ev.onMouseOver events "mouseOver" "jscChart.mouseOver"
  let events := setEventIf ev.onMouseOut events "mouseOut" "jscChart.mouseOut"
  let events := setEventIf ev.onPointSelectionChanged events "pointSelectionChanged"
    "jscChart.pointSelectionChanged"
  let events := setEventIf ev.onSeriesSelectionChanged events "seriesSelectionChanged"
    "jscChart.seriesSelectionChanged"
  let events := setEventIf ev.onBeforeExport events "beforeExport" "jscChart.beforeExport"
  let events := setEventIf ev.onAfterExport events "afterExport" "jscChart.afterExport"
  let config := setField config "events" events
  let config :=
    if ev.onPointClick || ev.onPointMouseOver || ev.onPointMouseOut ||
        ev.onPointSelect || ev.onPointUnselect then
      let dp := orEmptyObj (getField config "defaultPoint")
      let dpe := orEmptyObj (getField dp "events")
      let dpe := setEventIf ev.onPointClick dpe "click" "jscChart.point.click"
      let dpe := setEventIf ev.onPointMouseOver dpe "mouseOver" "jscChart.point.mouseOver"
      let dpe := setEventIf ev.onPointMouseOut dpe "mouseOut" "jscChart.point.mouseOut"
      let dpe := setEventIf ev.onPointSelect dpe "select" "jscChart.point.select"
      let dpe := setEventIf ev.onPointUnselect dpe "unselect" "jscChart.point.unselect"
      setField config "defaultPoint" (setField dp "events" dpe)
    else config
  let config :=
    if ev.onSeriesClick || ev.onSeriesMouseOver || ev.onSeriesMouseOut ||
        ev.onSeriesShow || ev.onSeriesHide then
      let ds := orEmptyObj (getField config "defaultSeries")
      let dse := orEmptyObj (getField ds "events")
      let dse := setEventIf ev.onSeriesClick dse "click" "jscChart.series.click"
      let dse := setEventIf ev.onSeriesMouseOver dse "mouseOver" "jscChart.series.mouseOver"
      let dse := setEventIf ev.onSeriesMouseOut dse "mouseOut" "jscChart.series.mouseOut"
      let dse := setEventIf ev.onSeriesShow dse "show" "jscChart.series.show"
      let dse := setEventIf ev.onSeriesHide dse "hide" "jscChart.series.hide"
      setField config "defaultSeries" (setField ds "events" dse)
    else config
  let config :=
    if ev.onLegendClick || ev.onLegendMouseOver || ev.onLegendMouseOut then
      let lg := orEmptyObj (getField config "legend")
      let de := orEmptyObj (getField lg "defaultEntry")
      let dee := orEmptyObj (getField de "events")
      let dee := setEventIf ev.onLegendClick dee "click" "jscChart.legend.click"
      let dee := setEventIf ev.onLegendMouseOver dee "mouseOver" "jscChart.legend.mouseOver"
      let dee := setEventIf ev.onLegendMouseOut dee "mouseOut" "jscChart.legend.mouseOut"
      setField config "legend" (setField lg "defaultEntry" (setField de "events" dee))
    else config
  let config :=
    if ev.onAxisTickClick || ev.onAxisTickMouseOver || ev.onAxisTickMouseOut then
      let ax := orEmptyObj (getField config "xAxis")
      let dt := orEmptyObj (getField ax "defaultTick")
      let dte := orEmptyObj (getField dt "events")
      let dte := setEventIf ev.onAxisTickClick dte "click" "jscChart.axisTick.click"
      let dte := setEventIf ev.onAxisTickMouseOver dte "mouseOver" "jscChart.axisTick.mouseOver"
      let dte := setEventIf ev.onAxisTickMouseOut dte "mouseOut" "jscChart.axisTick.mouseOut"
      setField config "xAxis" (setField ax "defaultTick" (setField dt "events" dte))
    else config
  config

/-- Model of the `jscChart` link function's `buildConfig()`
(src/src/core/chart.directive.js, lines 108‑154): a copy of `scope.options`
(or `{}` when falsy) with the individual attribute bindings applied on top,
then the event wrappers wired in. -/
def buildConfig (sc : ChartScope) : JVal :=
  let config := if jsTruthy sc.options then sc.options else .obj []
  let config :=
    if strTruthy sc.type then setField config "type" (.str (sc.type.getD "")) else config
  let config := if jsTruthy sc.series then setField config "series" sc.series else config
  let config := if isUndef sc.palette then config else setField config "palette" sc.palette
  let config := if isUndef sc.debug then config else setField config "debug" sc.debug
  let config := if isUndef sc.animation then config else setField config "animation" sc.animation
  let config :=
    if strTruthy sc.title then
      let t := orEmptyObj (getField config "title")
      let l := orEmptyObj (getField t "label")
      setField config "title" (setField t "label" (setField l "text" (.str (sc.title.getD ""))))
    else config
  let config :=
    if strTruthy sc.legendPosition then
      let lg := orEmptyObj (getField config "legend")
      setField config "legend" (setField lg "position" (.str (sc.legendPosition.getD "")))
    else config
  let config :=
    if strTruthy sc.axisToZoom then
      setField config "axisToZoom" (.str (sc.axisToZoom.getD ""))
    else config
  let config :=
    if strTruthy sc.width then setField config "width" (.str (sc.width.getD "")) else config
  let config :=
    if strTruthy sc.height then setField config "height" (.str (sc.height.getD "")) else config
  let config := if isUndef sc.muted then config else setField config "muted" sc.muted
  wireEvents sc.events config

/-- One observable interaction with the external chart engine. -/
inductive EngineCall : Type where
  | createCall (cfg : JVal)
  | optionsCall (handle : Nat) (cfg : JVal)
  | destroyCall (handle : Nat)
deriving Repr, DecidableEq

/-- The body a pending `$timeout` of the link function will run: the
`scheduleUpdate` body (rebuild the config, then `updateChart`), or the
series watcher's body, which captured the new series value. -/
inductive TimerTask : Type where
  | updateTask
  | seriesTask (v : JVal)
deriving Repr, DecidableEq

/-- The local variables of the `jscChart` link closure
(src/src/core/chart.directive.js, lines 93‑99) plus the scope bindings and
the two-way `chartInstance` output.  External chart instances are identified
by `Nat` handles. -/
structure LinkState where
  scope : ChartScope
  chartInstance : Option Nat := none
  chart : Option Nat := none
  debounceTimeout : Option Nat := none
  isInitialized : Bool := false
  pendingUpdate : Option JVal := none
  initializationInProgress : Bool := false
  lastOptionsHash : Option String := none
  lastSeriesHash : Option String := none
deriving Repr, DecidableEq

/-- The directive's world: link state plus the asynchronous environment —
the outstanding module-load promise and its captured config, the engine's
undelivered ready callback, the live `$timeout` timers, the factory's
process-wide instance registry, and observation logs.  Timers carry no
clock: the modelled claims are about ordering, and the adversary chooses
when an uncancelled timer fires. -/
structure WorldState where
  link : LinkState
  loadingConfig : Option JVal := none
  moduleLoadPending : Bool := false
  readyPending : Option Nat := none
  activeTimers : List (Nat × TimerTask) := []
  nextTimer : Nat := 0
  nextHandle : Nat := 0
  registry : List Nat := []
  elementAlive : Bool := true
  engineLog : List EngineCall := []
  errorLog : Nat := 0
  uncaughtErrors : Nat := 0
deriving Repr, DecidableEq

/-- Model of `jscChartFactory.destroy(idOrChart)` called with a chart object
(src/unnamed/part_004, lines 197‑228): a live chart is destroyed (engine
errors are caught) and removed from the registry, returning `true`;
`null`/`undefined` matches neither branch and returns `false` with no engine
interaction. -/
def factoryDestroy (hOpt : Option Nat) (registry : List Nat) :
    List Nat × List EngineCall × Bool :=
  match hOpt with
  | none => (registry, [], false)
  | some h => (registry.filter (· ≠ h), [.destroyCall h], true)

/-- Model of the link function's `updateChart(newConfig)`
(src/src/core/chart.directive.js, lines 457‑468): with no chart the config
becomes the (single, overwritten) pending update; with a chart the engine's
`chart.options` is called (exceptions are caught and logged). -/
def updateChart (ls : LinkState) (newConfig : JVal) : LinkState × List EngineCall :=
  match ls.chart with
  | none => ({ ls with pendingUpdate := some newConfig }, [])
  | some h => (ls, [.optionsCall h newConfig])

/-- Removes a cancelled timer (`$timeout.cancel`); cancelling `null` or an
already-fired/cancelled id changes nothing. -/
def cancelTimer (ts : List (Nat × TimerTask)) : Option Nat → List (Nat × TimerTask)
  | none => ts
  | some id => ts.filter (fun x => x.1 ≠ id)

/-- Model of the link function's `scheduleUpdate()`
(src/src/core/chart.directive.js, lines 473‑482): cancel the pending
debounce timer, then start a new one whose body rebuilds the config and
calls `updateChart`. -/
def scheduleUpdate (w : WorldState) : WorldState :=
  let timers := cancelTimer w.activeTimers w.link.debounceTimeout
  { w with
    activeTimers := timers ++ [(w.nextTimer, .updateTask)],
    nextTimer := w.nextTimer + 1,
    link := { w.link with debounceTimeout := some w.nextTimer } }

/-- Model of the link function's `initChart()`
(src/src/core/chart.directive.js, lines 406‑452) up to its first suspension
point: the re-entrancy guard, building the config, caching both hashes, and
starting the module load.  The continuation is `moduleResolvedStep` /
`moduleFailedStep`. -/
def initChart (w : WorldState) : WorldState :=
  if w.link.initializationInProgress then w
  else
    let ls := { w.link with initializationInProgress := true }
    let config := buildConfig ls.scope
    let ls := { ls with
      lastOptionsHash := some (computeHash ls.scope.options),
      lastSeriesHash := some (computeHash ls.scope.series) }
    { w with link := ls, loadingConfig := some config, moduleLoadPending := true }

/-- Model of the `.then` continuation of `initChart`'s module load together
with `jscChartFactory.createSync` (src/unnamed/part_004, lines 122‑156):
the destroyed-element guard, merging the captured config with the provider
defaults, and the engine creation call.  `createOk = false` models
`JSC.chart` throwing synchronously: `createSync` logs one error and returns
`null` (note the source resets `initializationInProgress` on neither
outcome; only the ready callback or the element guard does).  The JSC
global is assumed present (`isJSCAvailable`); `loadingConfig` is always set
while a load is pending (`initChart` sets it), so its `getD` default is
never reached on a trace that starts from `initialWorld`. -/
def moduleResolvedStep (createOk : Bool) (w : WorldState) : WorldState :=
  if ¬ w.moduleLoadPending then w
  else
    let w := { w with moduleLoadPending := false }
    if ¬ w.elementAlive then
      { w with link := { w.link with initializationInProgress := false } }
    else
      let cfg := w.loadingConfig.getD (.obj [])
      let merged := mergeWithDefaults providerDefaults cfg
      if createOk then
        let h := w.nextHandle
        { w with
          link := { w.link with chart := some h },
          nextHandle := h + 1,
          readyPending := some h,
          engineLog := w.engineLog ++ [.createCall merged] }
      else
        { w with
          link := { w.link with chart := none },
          engineLog := w.engineLog ++ [.createCall merged],
          errorLog := w.errorLog + 1 }

/-- Model of the `.catch` branch of `initChart`'s module load
(src/src/core/chart.directive.js, lines 448‑451): log one error and clear
the re-entrancy guard.  Nothing else is cleaned up. -/
def moduleFailedStep (w : WorldState) : WorldState :=
  if ¬ w.moduleLoadPending then w
  else
    { w with
      moduleLoadPending := false,
      errorLog := w.errorLog + 1,
      link := { w.link with initializationInProgress := false } }

/-- Model of the engine's ready callback being delivered: the factory's
`$timeout` body registers the instance (src/unnamed/part_004, lines
132‑148), then the directive's callback body (src/src/core/chart.directive.js,
lines 427‑447) runs its `chart === chartInstance` guard, publishes the
instance, flips the lifecycle flags, and consumes a pending update exactly
once.  The two `$timeout` bodies run back to back; no modelled observation
distinguishes an interleaving between them. -/
def readyFiredStep (w : WorldState) : WorldState :=
  match w.readyPending with
  | none => w
  | some h =>
    let w := { w with readyPending := none, registry := w.registry ++ [h] }
    if w.link.chart = some h then
      let ls := { w.link with
        chartInstance := some h,
        isInitialized := true,
        initializationInProgress := false }
      match ls.pendingUpdate with
      | some p =>
        let (ls2, calls) := updateChart ls p
        { w with link := { ls2 with pendingUpdate := none }, engineLog := w.engineLog ++ calls }
      | none => { w with link := ls }
    else w

/-- Model of a pending `$timeout` firing: the timer is consumed, then its
body runs — `scheduleUpdate`'s body (rebuild and `updateChart`) or the
series watcher's body (`chart.options({series: newVal.slice()})`, which
throws an uncaught `TypeError` when the chart was destroyed meanwhile). -/
def timerFired (id : Nat) (w : WorldState) : WorldState :=
  match w.activeTimers.find? (fun x => x.1 = id) with
  | none => w
  | some (_, task) =>
    let w := { w with activeTimers := w.activeTimers.filter (fun x => x.1 ≠ id) }
    match task with
    | .updateTask =>
      let cfg := buildConfig w.link.scope
      let (ls, calls) := updateChart w.link cfg
      { w with link := ls, engineLog := w.engineLog ++ calls }
    | .seriesTask v =>
      match w.link.chart with
      | some h =>
        { w with engineLog :=
            w.engineLog ++ [.optionsCall h (.obj [("series", if jsTruthy v then v else .arr [])])] }
      | none => { w with uncaughtErrors := w.uncaughtErrors + 1 }

/-- Model of the `$watch('options', …, true)` listener
(src/src/core/chart.directive.js, lines 485‑494): record the new binding,
then — once initialized — recompute the fingerprint and schedule a debounced
update only when it differs from the cached one. -/
def optionsWatch (v : JVal) (w : WorldState) : WorldState :=
  let w := { w with link := { w.link with scope := { w.link.scope with options := v } } }
  if ¬ w.link.isInitialized then w
  else
    let newHash := computeHash v
    if some newHash ≠ w.link.lastOptionsHash then
      scheduleUpdate { w with link := { w.link with lastOptionsHash := some newHash } }
    else w

/-- Model of the `$watch('series', …, true)` listener
(src/src/core/chart.directive.js, lines 497‑511): like the options watcher
but with its own cached hash and a timer body that ships only the series
(shallow-copied). -/
def seriesWatch (v : JVal) (w : WorldState) : WorldState :=
  let w := { w with link := { w.link with scope := { w.link.scope with series := v } } }
  if ¬ w.link.isInitialized ∨ w.link.chart = none then w
  else
    let newHash := computeHash v
    if some newHash ≠ w.link.lastSeriesHash then
      let timers := cancelTimer w.activeTimers w.link.debounceTimeout
      { w with
        link := { w.link with
          lastSeriesHash := some newHash,
          debounceTimeout := some w.nextTimer },
        activeTimers := timers ++ [(w.nextTimer, .seriesTask v)],
        nextTimer := w.nextTimer + 1 }
    else w

/-- Model of the `$watch('type')` listener
(src/src/core/chart.directive.js, lines 514‑525): a type change on an
initialized, non-initializing chart destroys the current instance and
re-runs `initChart`. -/
def typeWatch (t : Option String) (w : WorldState) : WorldState :=
  let old := w.link.scope.type
  let w := { w with link := { w.link with scope := { w.link.scope with type := t } } }
  if t ≠ old ∧ w.link.isInitialized ∧ ¬ w.link.initializationInProgress then
    let w :=
      match w.link.chart with
      | some h =>
        let (reg, calls, _) := factoryDestroy (some h) w.registry
        { w with
          link := { w.link with chart := none, chartInstance := none, isInitialized := false },
          registry := reg,
          engineLog := w.engineLog ++ calls }
      | none => w
    initChart w
  else w

/-- Model of the `$watch('palette')` listener
(src/src/core/chart.directive.js, lines 528‑532): a strict-inequality guard
and a direct `chart.options({palette: newVal})` — no fingerprint, no
debounce. -/
def paletteWatch (v : JVal) (w : WorldState) : WorldState :=
  let old := w.link.scope.palette
  let w := { w with link := { w.link with scope := { w.link.scope with palette := v } } }
  if jsStrictNe v old then
    match w.link.chart with
    | some h => { w with engineLog := w.engineLog ++ [.optionsCall h (.obj [("palette", v)])] }
    | none => w
  else w

/-- Model of the `$watch('muted')` listener
(src/src/core/chart.directive.js, lines 535‑539): same shape as the palette
watcher. -/
def mutedWatch (v : JVal) (w : WorldState) : WorldState :=
  let old := w.link.scope.muted
  let w := { w with link := { w.link with scope := { w.link.scope with muted := v } } }
  if jsStrictNe v old then
    match w.link.chart with
    | some h => { w with engineLog := w.engineLog ++ [.optionsCall h (.obj [("muted", v)])] }
    | none => w
  else w

/-- Model of the `$destroy` handler (src/src/core/chart.directive.js, lines
542‑554): cancel the debounce timer, destroy a live chart through the
factory, and clear the published instance and the initialized flag. -/
def destroyStep (w : WorldState) : WorldState :=
  let timers := cancelTimer w.activeTimers w.link.debounceTimeout
  let (reg, calls, _) := factoryDestroy w.link.chart w.registry
  { w with
    activeTimers := timers,
    registry := reg,
    engineLog := w.engineLog ++ calls,
    link := { w.link with chart := none, chartInstance := none, isInitialized := false } }

/-- The observable events of one mounted `jscChart`: the link function
running, the module-load promise settling, the engine ready callback, timers
firing, the watchers firing with a new bound value, and scope teardown. -/
inductive DirEv : Type where
  | linkInit
  | moduleResolved (createOk : Bool)
  | moduleFailed
  | readyFired
  | timerFires (id : Nat)
  | optionsChanged (v : JVal)
  | seriesChanged (v : JVal)
  | typeChanged (t : Option String)
  | paletteChanged (v : JVal)
  | mutedChanged (v : JVal)
  | scopeDestroyed
deriving Repr, DecidableEq

/-- Dispatches one event to its handler. -/
def step (w : WorldState) : DirEv → WorldState
  | .linkInit => initChart w
  | .moduleResolved ok => moduleResolvedStep ok w
  | .moduleFailed => moduleFailedStep w
  | .readyFired => readyFiredStep w
  | .timerFires id => timerFired id w
  | .optionsChanged v => optionsWatch v w
  | .seriesChanged v => seriesWatch v w
  | .typeChanged t => typeWatch t w
  | .paletteChanged v => paletteWatch v w
  | .mutedChanged v => mutedWatch v w
  | .scopeDestroyed => destroyStep w

/-- Runs a sequence of events. -/
def runEvents (w : WorldState) : List DirEv → WorldState
  | [] => w
  | e :: es => runEvents (step w e) es

/-- The world at mount time, before the link function has run. -/
def initialWorld (sc : ChartScope) : WorldState := { link := { scope := sc } }

/-- Whether an engine call is an options (update) call. -/
def isOptionsCall : EngineCall → Bool
  | .optionsCall _ _ => true
  | _ => false

end JscChart

namespace Debounce

/-- State of one debounced function created by `jscPerformance.debounce`
(src/unnamed/part_005, lines 23‑49): the closure's `timeout` variable, plus
the `$timeout` service's live timers — `(id, deadline, captured args)` — a
fresh-id counter and the log of invocations of the wrapped `func`. -/
structure DebState (α : Type) where
  timeout : Option Nat := none
  nextId : Nat := 0
  active : List (Nat × Nat × α) := []
  fired : List α := []
deriving Repr, DecidableEq

/-- One call of the debounced function at time `now` with arguments `args`:
compute `callNow`, cancel a pending timer, register the `later` body as a
fresh timer due at `now + wait`, and on a leading edge invoke `func`
immediately. -/
def debCall (immediate : Bool) (wait now : Nat) (args : α) (s : DebState α) : DebState α :=
  let callNow := immediate && s.timeout.isNone
  let active :=
    match s.timeout with
    | some id => s.active.filter (fun x => x.1 ≠ id)
    | none => s.active
  { timeout := some s.nextId
    nextId := s.nextId + 1
    active := active ++ [(s.nextId, now + wait, args)]
    fired := if callNow then s.fired ++ [args] else s.fired }

/-- The `$timeout` service delivering timer `id` at time `now`: an
uncancelled timer whose deadline has been reached runs `later`, which clears
`timeout` and — in trailing mode — invokes `func` with the captured
arguments.  A cancelled timer or one whose deadline lies ahead does
nothing. -/
def debDeliver (immediate : Bool) (now id : Nat) (s : DebState α) : DebState α :=
  match s.active.find? (fun x => x.1 = id) with
  | none => s
  | some (_, dl, args) =>
    if dl ≤ now then
      { s with
        active := s.active.filter (fun x => x.1 ≠ id),
        timeout := none,
        fired := if immediate then s.fired else s.fired ++ [args] }
    else s

/-- An observable event against one debounced function: a call of the
debounced wrapper, or the timer service attempting a delivery. -/
inductive DebEv (α : Type) : Type where
  | call (t : Nat) (args : α)
  | deliver (t : Nat) (id : Nat)
deriving Repr, DecidableEq

/-- Dispatches one event. -/
def debStep (immediate : Bool) (wait : Nat) (s : DebState α) : DebEv α → DebState α
  | .call t args => debCall immediate wait t args s
  | .deliver t id => debDeliver immediate t id s

/-- Runs a sequence of events. -/
def debRun (immediate : Bool) (wait : Nat) (s : DebState α) : List (DebEv α) → DebState α
  | [] => s
  | e :: es => debRun immediate wait (debStep immediate wait s e) es

/-- `BurstFrom wait t a tr`: the events `tr` continue a burst whose most
recent call happened at time `t` with arguments `a` — every subsequent call
arrives strictly within `wait` of the previous one, and every delivery
attempt in between happens strictly before the pending timer's deadline
(i.e. the burst outpaces the debounce delay). -/
inductive BurstFrom {α : Type} (wait : Nat) : Nat → α → List (DebEv α) → Prop where
  | nil : ∀ (t : Nat) (a : α), BurstFrom wait t a []
  | deliver : ∀ (t : Nat) (a : α) (td id : Nat) (tr : List (DebEv α)),
      td < t + wait → BurstFrom wait t a tr → BurstFrom wait t a (.deliver td id :: tr)
  | call : ∀ (t : Nat) (a : α) (tn : Nat) (an : α) (tr : List (DebEv α)),
      tn < t + wait → BurstFrom wait tn an tr → BurstFrom wait t a (.call tn an :: tr)

/-- The time and arguments of the last call in a burst. -/
def lastCall (t : Nat) (a : α) : List (DebEv α) → Nat × α
  | [] => (t, a)
  | .call tn an :: tr => lastCall tn an tr
  | .deliver _ _ :: tr => lastCall t a tr

end Debounce

namespace EventBridge

/-- The fixed-shape payload `jscEventService.wrapCallback` hands to the
scope callback: the engine event, the chart instance captured at wrap time
(`none` models a null reference), the event type and a timestamp. -/
structure Payload where
  event : JVal
  chart : Option Nat
  eventType : String
  timestamp : Nat
deriving Repr, DecidableEq

/-- State of the bridge around one wrapped callback: whether the owning
lifecycle has begun tearing down, a clock supplying `Date.now()`, the
`$timeout` tasks queued by the wrapper and not yet run, and the log of
scope-callback invocations. -/
structure BridgeState where
  destroyed : Bool := false
  clock : Nat := 0
  pending : List (JVal × Option Nat × String) := []
  invoked : List Payload := []
deriving Repr, DecidableEq

/-- Model of the function returned by `jscEventService.wrapCallback`
(src/unnamed/part_002, lines 404‑415) being invoked by the engine with event
`e`: it unconditionally queues a `$timeout` task that will call the scope
callback with the captured chart — the source contains no check of the
owning lifecycle's state. -/
def wrapperInvoke (capturedChart : Option Nat) (eventType : String) (e : JVal)
    (s : BridgeState) : BridgeState :=
  { s with pending := s.pending ++ [(e, capturedChart, eventType)] }

/-- The `$timeout` service running the oldest queued wrapper task: the scope
callback is invoked with the payload (timestamp taken now), with no check of
`destroyed`. -/
def taskRun (s : BridgeState) : BridgeState :=
  match s.pending with
  | [] => s
  | (e, ch, ty) :: rest =>
    { s with
      pending := rest,
      clock := s.clock + 1,
      invoked := s.invoked ++ [⟨e, ch, ty, s.clock⟩] }

/-- The owning lifecycle controller begins `Destroying`. -/
def destroyBegins (s : BridgeState) : BridgeState := { s with destroyed := true }

end EventBridge

namespace JscGantt

/-- The `jscGantt` directive's scope bindings (src/unnamed/part_000, lines
27‑48). -/
structure GanttScope where
  series : JVal := .undef
  options : JVal := .undef
  showDependencies : JVal := .undef
  criticalPath : JVal := .undef
  palette : JVal := .undef
  title : Option String := none
  debug : JVal := .undef
  dateFormat : Option String := none
  xAxisConfig : JVal := .undef
  yAxisConfig : JVal := .undef
  onLoad : Bool := false
  onPointClick : Bool := false
  onPointMouseOver : Bool := false
  onPointMouseOut : Bool := false
  onZoomed : Bool := false
deriving Repr, DecidableEq

/-- Model of the `jscGantt` link function's `wireEvents(config)`
(src/unnamed/part_000, lines 120‑162). -/
def wireEvents (sc : GanttScope) (config : JVal) : JVal :=
  let events := orEmptyObj (getField config "events")
  let events := JscChart.setEventIf sc.onZoomed events "zoomed" "jscGantt.zoomed"
  let config := setField config "events" events
  if sc.onPointClick || sc.onPointMouseOver || sc.onPointMouseOut then
    let dp := orEmptyObj (getField config "defaultPoint")
    let dpe := orEmptyObj (getField dp "events")
    let dpe := JscChart.setEventIf sc.onPointClick dpe "click" "jscGantt.point.click"
    let dpe := JscChart.setEventIf sc.onPointMouseOver dpe "mouseOver" "jscGantt.point.mouseOver"
    let dpe := JscChart.setEventIf sc.onPointMouseOut dpe "mouseOut" "jscGantt.point.mouseOut"
    setField config "defaultPoint" (setField dp "events" dpe)
  else config

/-- Model of the `jscGantt` link function's `buildConfig()`
(src/unnamed/part_000, lines 58‑115): the caller's options with
`config.type = 'gantt'` forced, the gantt-specific attributes applied, the
axis configs deep-merged via `angular.merge`, and events wired. -/
def buildConfig (sc : GanttScope) : JVal :=
  let config := if jsTruthy sc.options then sc.options else .obj []
  let config := setField config "type" (.str "gantt")
  let config := if jsTruthy sc.series then setField config "series" sc.series else config
  let config := if jsTruthy sc.palette then setField config "palette" sc.palette else config
  let config :=
    if strTruthy sc.title then
      let t := orEmptyObj (getField config "title")
      let l := orEmptyObj (getField t "label")
      setField config "title" (setField t "label" (setField l "text" (.str (sc.title.getD ""))))
    else config
  let config := if isUndef sc.debug then config else setField config "debug" sc.debug
  let config := setField config "xAxis" (orEmptyObj (getField config "xAxis"))
  let config :=
    if jsTruthy sc.xAxisConfig then
      setField config "xAxis" (amerge (getField config "xAxis") sc.xAxisConfig)
    else config
  let config := setField config "yAxis" (orEmptyObj (getField config "yAxis"))
  let config :=
    if jsTruthy sc.yAxisConfig then
      setField config "yAxis" (amerge (getField config "yAxis") sc.yAxisConfig)
    else config
  let config :=
    if isUndef sc.showDependencies then config
    else
      let dp := orEmptyObj (getField config "defaultPoint")
      let cl := orEmptyObj (getField dp "connectorLine")
      setField config "defaultPoint"
        (setField dp "connectorLine" (setField cl "visible" sc.showDependencies))
  let config :=
    if isUndef sc.criticalPath then config
    else
      let ds := orEmptyObj (getField config "defaultSeries")
      setField config "defaultSeries" (setField ds "criticalPath" sc.criticalPath)
  wireEvents sc config

end JscGantt

namespace JscOrgChart

/-- The `jscOrgChart` directive's scope bindings (src/unnamed/part_000,
lines 265‑284). -/
structure OrgScope where
  series : JVal := .undef
  options : JVal := .undef
  orientation : Option String := none
  pointWidth : JVal := .undef
  pointPadding : JVal := .undef
  connectorLine : JVal := .undef
  palette : JVal := .undef
  title : Option String := none
  debug : JVal := .undef
  onLoad : Bool := false
  onPointClick : Bool := false
  onPointMouseOver : Bool := false
  onPointMouseOut : Bool := false
deriving Repr, DecidableEq

/-- Model of the `jscOrgChart` link function's `wireEvents(config)`
(src/unnamed/part_000, lines 348‑380). -/
def wireEvents (sc : OrgScope) (config : JVal) : JVal :=
  if sc.onPointClick || sc.onPointMouseOver || sc.onPointMouseOut then
    let dp := orEmptyObj (getField config "defaultPoint")
    let dpe := orEmptyObj (getField dp "events")
    let dpe := JscChart.setEventIf sc.onPointClick dpe "click" "jscOrgChart.point.click"
    let dpe := JscChart.setEventIf sc.onPointMouseOver dpe "mouseOver" "jscOrgChart.point.mouseOver"
    let dpe := JscChart.setEventIf sc.onPointMouseOut dpe "mouseOut" "jscOrgChart.point.mouseOut"
    setField config "defaultPoint" (setField dp "events" dpe)
  else config

/-- Model of the `jscOrgChart` link function's `buildConfig()`
(src/unnamed/part_000, lines 294‑343): the caller's options with
`config.type` forced to `'organizational'` (plus `' horizontal'` when the
orientation attribute is exactly `'horizontal'`). -/
def buildConfig (sc : OrgScope) : JVal :=
  let config := if jsTruthy sc.options then sc.options else .obj []
  let config := setField config "type"
    (.str ("organizational" ++ (if sc.orientation = some "horizontal" then " horizontal" else "")))
  let config := if jsTruthy sc.series then setField config "series" sc.series else config
  let config := if jsTruthy sc.palette then setField config "palette" sc.palette else config
  let config :=
    if strTruthy sc.title then
      let t := orEmptyObj (getField config "title")
      let l := orEmptyObj (getField t "label")
      setField config "title" (setField t "label" (setField l "text" (.str (sc.title.getD ""))))
    else config
  let config := if isUndef sc.debug then config else setField config "debug" sc.debug
  let config := setField config "defaultSeries" (orEmptyObj (getField config "defaultSeries"))
  let config :=
    if isUndef sc.pointWidth then config
    else
      let ds := getField config "defaultSeries"
      setField config "defaultSeries" (setField ds "pointWidth" sc.pointWidth)
  let config :=
    if isUndef sc.pointPadding then config
    else
      let dp := orEmptyObj (getField config "defaultPoint")
      setField config "defaultPoint" (setField dp "padding" sc.pointPadding)
  let config :=
    if jsTruthy sc.connectorLine then
      let ds := getField config "defaultSeries"
      setField config "defaultSeries" (setField ds "line" sc.connectorLine)
    else config
  wireEvents sc config

end JscOrgChart

namespace JscCalendar

/-- The `jscCalendar` directive's scope bindings (src/unnamed/part_001,
lines 28‑48). -/
structure CalendarScope where
  data : JVal := .undef
  series : JVal := .undef
  options : JVal := .undef
  year : JVal := .undef
  month : JVal := .undef
  orientation : Option String := none
  palette : JVal := .undef
  title : Option String := none
  debug : JVal := .undef
  calendarConfig : JVal := .undef
  onLoad : Bool := false
  onPointClick : Bool := false
  onPointMouseOver : Bool := false
  onPointMouseOut : Bool := false
deriving Repr, DecidableEq

/-- Model of the `jscCalendar` link function's `wireEvents(config)`
(src/unnamed/part_001, lines 115‑147). -/
def wireEvents (sc : CalendarScope) (config : JVal) : JVal :=
  if sc.onPointClick || sc.onPointMouseOver || sc.onPointMouseOut then
    let dp := orEmptyObj (getField config "defaultPoint")
    let dpe := orEmptyObj (getField dp "events")
    let dpe := JscChart.setEventIf sc.onPointClick dpe "click" "jscCalendar.point.click"
    let dpe := JscChart.setEventIf sc.onPointMouseOver dpe "mouseOver" "jscCalendar.point.mouseOver"
    let dpe := JscChart.setEventIf sc.onPointMouseOut dpe "mouseOut" "jscCalendar.point.mouseOut"
    setField config "defaultPoint" (setField dp "events" dpe)
  else config

/-- Model of the `jscCalendar` link function's `buildConfig()`
(src/unnamed/part_001, lines 58‑110): the caller's options with
`config.type` forced to `'calendar'` (plus `' horizontal'` when the
orientation attribute is exactly `'horizontal'`), data/series/calendar
attributes applied and `calendarConfig` deep-merged via `angular.merge`. -/
def buildConfig (sc : CalendarScope) : JVal :=
  let config := if jsTruthy sc.options then sc.options else .obj []
  let config := setField config "type"
    (.str ("calendar" ++ (if sc.orientation = some "horizontal" then " horizontal" else "")))
  let config := if jsTruthy sc.data then setField config "data" sc.data else config
  let config := if jsTruthy sc.series then setField config "series" sc.series else config
  let config := setField config "calendar" (orEmptyObj (getField config "calendar"))
  let config :=
    if isUndef sc.year then config
    else
      let cal := getField config "calendar"
      setField config "calendar" (setField cal "year" sc.year)
  let config :=
    if isUndef sc.month then config
    else
      let cal := getField config "calendar"
      setField config "calendar" (setField cal "month" sc.month)
  let config :=
    if jsTruthy sc.calendarConfig then
      setField config "calendar" (amerge (getField config "calendar") sc.calendarConfig)
    else config
  let config := if jsTruthy sc.palette then setField config "palette" sc.palette else config
  let config :=
    if strTruthy sc.title then
      let t := orEmptyObj (getField config "title")
      let l := orEmptyObj (getField t "label")
      setField config "title" (setField t "label" (setField l "text" (.str (sc.title.getD ""))))
    else config
  let config := if isUndef sc.debug then config else setField config "debug" sc.debug
  wireEvents sc config

end JscCalendar

namespace JscMap

/-- The `jscMap` directive's scope bindings (src/src/maps/map.directive.js,
lines 28‑58). -/
structure MapScope where
  map : Option String := none
  series : JVal := .undef
  options : JVal := .undef
  palette : JVal := .undef
  mapping : JVal := .undef
  title : Option String := none
  legend : JVal := .undef
  legendPosition : Option String := none
  tooltip : JVal := .undef
  debug : JVal := .undef
  projection : JVal := .undef
  zoomEnabled : JVal := .undef
  onLoad : Bool := false
  onPointClick : Bool := false
  onPointMouseOver : Bool := false
  onPointMouseOut : Bool := false
  onZoomed : Bool := false
  onSelecting : Bool := false
  onSelection : Bool := false
deriving Repr, DecidableEq

/-- Model of the `jscMap` link function's `wireEvents(config)`
(src/src/maps/map.directive.js, lines 142‑199). -/
def wireEvents (sc : MapScope) (config : JVal) : JVal :=
  let events := orEmptyObj (getField config "events")
  let events := JscChart.setEventIf sc.onZoomed events "zoomed" "jscMap.zoomed"
  let events := JscChart.setEventIf sc.onSelecting events "selecting" "jscMap.selecting"
  let events := JscChart.setEventIf sc.onSelection events "selection" "jscMap.selection"
  let config := setField config "events" events
  if sc.onPointClick || sc.onPointMouseOver || sc.onPointMouseOut then
    let dp := orEmptyObj (getField config "defaultPoint")
    let dpe := orEmptyObj (getField dp "events")
    let dpe := JscChart.setEventIf sc.onPointClick dpe "click" "jscMap.point.click"
    let dpe := JscChart.setEventIf sc.onPointMouseOver dpe "mouseOver" "jscMap.point.mouseOver"
    let dpe := JscChart.setEventIf sc.onPointMouseOut dpe "mouseOut" "jscMap.point.mouseOut"
    setField config "defaultPoint" (setField dp "events" dpe)
  else config

/-- Model of the `jscMap` link function's `buildConfig()`
(src/src/maps/map.directive.js, lines 68‑137): the caller's options with
`config.type = 'map'` forced, the mapping assembled from the `map` attribute
(base layers), a deep-merged `mapping` object and the projection, then the
chart-level attributes. -/
def buildConfig (sc : MapScope) : JVal :=
  let config := if jsTruthy sc.options then sc.options else .obj []
  let config := setField config "type" (.str "map")
  let config := setField config "mapping" (orEmptyObj (getField config "mapping"))
  let config :=
    if strTruthy sc.map then
      let mp := getField config "mapping"
      let base := orEmptyObj (getField mp "base")
      setField config "mapping" (setField mp "base" (setField base "layers" (.str (sc.map.getD ""))))
    else config
  let config :=
    if jsTruthy sc.mapping then
      setField config "mapping" (amerge (getField config "mapping") sc.mapping)
    else config
  let config :=
    if isUndef sc.projection then config
    else
      let mp := getField config "mapping"
      setField config "mapping" (setField mp "projection" sc.projection)
  let config := if jsTruthy sc.series then setField config "series" sc.series else config
  let config := if jsTruthy sc.palette then setField config "palette" sc.palette else config
  let config :=
    if strTruthy sc.title then
      let t := orEmptyObj (getField config "title")
      let l := orEmptyObj (getField t "label")
      setField config "title" (setField t "label" (setField l "text" (.str (sc.title.getD ""))))
    else config
  let config :=
    if jsTruthy sc.legend then setField config "legend" sc.legend
    else if strTruthy sc.legendPosition then
      let lg := orEmptyObj (getField config "legend")
      setField config "legend" (setField lg "position" (.str (sc.legendPosition.getD "")))
    else config
  let config := if jsTruthy sc.tooltip then setField config "defaultTooltip" sc.tooltip else config
  let config := if isUndef sc.debug then config else setField config "debug" sc.debug
  let config :=
    if isUndef sc.zoomEnabled then config
    else if jsTruthy sc.zoomEnabled then setField config "axisToZoom" (.str "xy")
    else setField config "axisToZoom" (.str "none")
  wireEvents sc config

end JscMap

/-- Specification vocabulary for the amended merge claim: writes the
elements of the third argument into the list at consecutive indices starting
at `i`, exactly as `angular.merge` addresses a source array's indices in
order. -/
def overwriteAt : List JVal → Nat → List JVal → List JVal
  | ds, _, [] => ds
  | ds, i, s :: rest => overwriteAt (listSetPad ds i s) (i + 1) rest

namespace JscChart

/-- A scope used by the concrete lifecycle traces below: a line chart whose
palette binding starts out as the number `1`. -/
def traceScope : ChartScope := { type := some "line", palette := .num 1 }

/-- A concrete options value used by the lifecycle traces. -/
def traceOptions : JVal := .obj [("a", .num 1)]

/-- Mount, create, reach `Ready`, change the options (scheduling debounce
timer 0), change the chart type (destroying the chart and starting a fresh
`Loading`), let the new creation call return a handle, and only then let the
stale debounce timer fire — an update request arriving while the second
instance is `Creating` (created, ready callback not yet delivered). -/
def creatingUpdateTrace : List DirEv :=
  [.linkInit, .moduleResolved true, .readyFired, .optionsChanged traceOptions,
   .typeChanged (some "pie"), .moduleResolved true, .timerFires 0]

/-- Like `creatingUpdateTrace`, but the stale timer fires while the second
`Loading` is still in flight (no handle yet), so the update is recorded as
the PendingUpdate; then the creation call returns a handle. -/
def loadingUpdateTrace : List DirEv :=
  [.linkInit, .moduleResolved true, .readyFired, .optionsChanged traceOptions,
   .typeChanged (some "pie"), .timerFires 0, .moduleResolved true]

/-- Mount, then let the engine's creation call throw synchronously
(spec §8 Scenario D). -/
def createThrowsTrace : List DirEv := [.linkInit, .moduleResolved false]

/-- Reach `Ready`, record a PendingUpdate during a re-initialization's
`Loading`, then let the module load fail. -/
def loadFailDanglingTrace : List DirEv :=
  [.linkInit, .moduleResolved true, .readyFired, .optionsChanged traceOptions,
   .typeChanged (some "pie"), .timerFires 0, .moduleFailed]

/-- Reach `Ready`, then fire the palette watcher with the string "1" while
the palette binding holds the number `1` — two values with identical
fingerprints. -/
def paletteHashEqTrace : List DirEv :=
  [.linkInit, .moduleResolved true, .readyFired, .paletteChanged (.str "1")]

/-- A mount whose options binding is a cyclic structure. -/
def cyclicScope : ChartScope := { options := .cyclic "a", type := some "line" }

/-- Reach `Ready` with cyclic options, then change the options binding to a
different cyclic structure. -/
def cyclicChangeTrace : List DirEv :=
  [.linkInit, .moduleResolved true, .readyFired, .optionsChanged (.cyclic "b")]

end JscChart

/-! ## Helper lemmas -/

theorem cancelTimer_idem (ts : List (Nat × JscChart.TimerTask)) (o : Option Nat) :
    JscChart.cancelTimer (JscChart.cancelTimer ts o) o = JscChart.cancelTimer ts o := by
  cases o with
  | none => rfl
  | some id => simp [JscChart.cancelTimer, List.filter_filter]

theorem lookup_setAssoc_ne (fs : List (String × JVal)) (k k' : String) (v : JVal)
    (h : ¬ k' = k) :
    (setAssoc fs k' v).lookup k = fs.lookup k := by
  induction fs with
  | nil =>
    have hb : (k == k') = false := by simp [Ne.symm h]
    simp [setAssoc, List.lookup, hb]
  | cons hd tl ih =>
    obtain ⟨k0, v0⟩ := hd
    by_cases h0 : k0 = k'
    · subst h0
      have hb : (k == k0) = false := by simp [Ne.symm h]
      simp [setAssoc, List.lookup, hb]
    · rcases hb : k == k0 with _ | _ <;> simp [setAssoc, h0, List.lookup, hb, ih]

theorem getField_setField_ne (c : JVal) (k k' : String) (v : JVal)
    (h : ¬ k' = k) (hk : parseIndex k = none) :
    getField (setField c k' v) k = getField c k := by
  cases c with
  | obj fs => simp [setField, getField, lookup_setAssoc_ne fs k k' v h]
  | arr es =>
    rcases h' : parseIndex k' with _ | i <;> simp [setField, getField, h', hk]
  | _ => rfl

theorem getTypeField_setField (c : JVal) (k' : String) (v : JVal) (h : ¬ k' = "type") :
    getField (setField c k' v) "type" = getField c "type" :=
  getField_setField_ne c "type" k' v h (by decide)

theorem getField_ite (b : Prop) [Decidable b] (x y : JVal) (k : String) :
    getField (if b then x else y) k = if b then getField x k else getField y k :=
  apply_ite (getField · k) b x y

theorem getField_setField_self_obj (fs : List (String × JVal)) (k : String) (v : JVal) :
    getField (setField (.obj fs) k v) k = v := by
  simp only [setField, getField]
  induction fs with
  | nil => simp [setAssoc, List.lookup]
  | cons hd tl ih =>
    obtain ⟨k0, v0⟩ := hd
    by_cases h0 : k0 = k
    · subst h0; simp [setAssoc, List.lookup]
    · have hb : (k == k0) = false := by simp [Ne.symm h0]
      simp [setAssoc, h0, List.lookup, hb, ih]

theorem digitChar_bounds (d : Nat) : 48 ≤ (digitChar d).toNat ∧ (digitChar d).toNat ≤ 57 := by
  rcases d with _|_|_|_|_|_|_|_|_|d <;> simp [digitChar]

theorem natDecimalAux_digits (n : Nat) (acc : List Char) :
    ∀ c ∈ natDecimalAux n acc, c ∈ acc ∨ (48 ≤ c.toNat ∧ c.toNat ≤ 57) := by
  induction n using Nat.strong_induction_on generalizing acc with
  | _ n ih =>
    intro c hc
    unfold natDecimalAux at hc
    by_cases h10 : n < 10
    · simp [h10] at hc
      rcases hc with rfl | hc
      · exact Or.inr (digitChar_bounds _)
      · exact Or.inl hc
    · simp [h10] at hc
      rcases ih (n / 10) (Nat.div_lt_self (by omega) (by omega)) _ c hc with h | h
      · rcases List.mem_cons.mp h with rfl | h
        · exact Or.inr (digitChar_bounds _)
        · exact Or.inl h
      · exact Or.inr h

theorem natDecimal_ne_null (n : Nat) : natDecimal n ≠ "null" := by
  intro h
  have hl : natDecimalAux n [] = ['n', 'u', 'l', 'l'] := by
    have h2 := congrArg String.data h
    simpa [natDecimal] using h2
  have hm : 'n' ∈ natDecimalAux n [] := by rw [hl]; simp
  rcases natDecimalAux_digits n [] 'n' hm with h' | h'
  · simp at h'
  · simp at h'

theorem dash_ne_null (x : String) : ("-" ++ x) ≠ "null" := by
  intro h
  have h2 := congrArg String.data h
  simp [String.data_append] at h2

theorem intDecimal_ne_null (n : Int) : intDecimal n ≠ "null" := by
  unfold intDecimal
  by_cases hn : n < 0
  · simp only [hn, if_true]
    exact dash_ne_null _
  · simp only [hn, if_false]
    exact natDecimal_ne_null _

theorem brace_ne_null (x : String) : ("\x7b" ++ x ++ "\x7d") ≠ "null" := by
  intro h
  have h2 := congrArg String.data h
  simp [String.data_append] at h2

theorem bracket_ne_null (x : String) : ("[" ++ x ++ "]") ≠ "null" := by
  intro h
  have h2 := congrArg String.data h
  simp [String.data_append] at h2

theorem function_ne_null (x : String) : ("function " ++ x) ≠ "null" := by
  intro h
  have h2 := congrArg String.data h
  simp [String.data_append] at h2

theorem comma_append_ne_null (a b : String) : (a ++ "," ++ b) ≠ "null" := by
  intro h
  have h2 := congrArg String.data h
  simp [String.data_append] at h2
  have hm : ',' ∈ a.data ++ ',' :: b.data := by simp
  rw [h2] at hm
  simp at hm

theorem arr_throw_join_ne_null :
    ∀ (fuel : Nat) (es : List JVal), sizeOf es ≤ fuel →
      stringifyArr es = none → jsArrJoin es ≠ "null" := by
  intro fuel
  induction fuel with
  | zero =>
    intro es hsz
    cases es <;> simp_all
  | succ fuel ih =>
    intro es hsz hnone
    match es with
    | [] => simp [stringifyArr] at hnone
    | [e] =>
      have he : stringifyAux e = .throwRes := by
        rcases h' : stringifyAux e with _ | _ | s <;> simp [stringifyArr, h'] at hnone
        · rfl
      match e with
      | .jsNull | .undef | .bool _ | .num _ | .str _ | .func _ =>
        simp [stringifyAux] at he
      | .arr es' =>
        have hnone' : stringifyArr es' = none := by
          rcases h'' : stringifyArr es' with _ | parts
          · rfl
          · simp [stringifyAux, h''] at he
        have hsz' : sizeOf es' ≤ fuel := by
          simp at hsz; omega
        simp only [jsArrJoin, jsElemString, jsToString]
        exact ih es' hsz' hnone'
      | .obj fs =>
        simp [jsArrJoin, jsElemString, jsToString]
      | .cyclic t =>
        simp [jsArrJoin, jsElemString, jsToString]
    | e :: e' :: rest =>
      simp only [jsArrJoin]
      exact comma_append_ne_null _ _

theorem amergeElems_flat (os : List JVal) :
    ∀ (ds : List JVal) (i : Nat), (∀ e ∈ os, isObjectJS e = false) →
      amergeElems (.arr ds) i os = .arr (overwriteAt ds i os) := by
  induction os with
  | nil => intro ds i _; simp [amergeElems, overwriteAt]
  | cons s rest ih =>
    intro ds i h
    have hs : isObjectJS s = false := h s (by simp)
    rw [amergeElems, overwriteAt]
    simp only [hs, Bool.false_eq_true, if_false, setPropIdx]
    exact ih _ _ (fun e he => h e (by simp [he]))

theorem overwriteAt_cons (os : List JVal) :
    ∀ (x : JVal) (ds : List JVal) (i : Nat),
      overwriteAt (x :: ds) (i + 1) os = x :: overwriteAt ds i os := by
  induction os with
  | nil => intro x ds i; simp [overwriteAt]
  | cons s rest ih =>
    intro x ds i
    rw [overwriteAt, overwriteAt]
    have hp : listSetPad (x :: ds) (i + 1) s = x :: listSetPad ds i s := by rfl
    rw [hp, ih]

theorem overwriteAt_zero (os : List JVal) :
    ∀ ds : List JVal, overwriteAt ds 0 os = os ++ ds.drop os.length := by
  induction os with
  | nil => intro ds; simp [overwriteAt]
  | cons s rest ih =>
    intro ds
    rw [overwriteAt]
    cases ds with
    | nil =>
      have hp : listSetPad [] 0 s = [s] := rfl
      rw [hp, overwriteAt_cons, ih]
      simp
    | cons d t =>
      have hp : listSetPad (d :: t) 0 s = s :: t := rfl
      rw [hp, overwriteAt_cons, ih]
      simp

theorem optionsWatch_hash_eq (w : JscChart.WorldState) (v : JVal)
    (h : some (computeHash v) = w.link.lastOptionsHash) :
    (JscChart.optionsWatch v w).activeTimers = w.activeTimers
    ∧ (JscChart.optionsWatch v w).engineLog = w.engineLog
    ∧ (JscChart.optionsWatch v w).link.debounceTimeout = w.link.debounceTimeout
    ∧ (JscChart.optionsWatch v w).link.lastOptionsHash = w.link.lastOptionsHash
    ∧ (JscChart.optionsWatch v w).nextTimer = w.nextTimer := by
  unfold JscChart.optionsWatch
  by_cases hi : w.link.isInitialized <;> simp [hi, h]

theorem seriesWatch_hash_eq (w : JscChart.WorldState) (v : JVal)
    (h : some (computeHash v) = w.link.lastSeriesHash) :
    (JscChart.seriesWatch v w).activeTimers = w.activeTimers
    ∧ (JscChart.seriesWatch v w).engineLog = w.engineLog
    ∧ (JscChart.seriesWatch v w).link.debounceTimeout = w.link.debounceTimeout := by
  unfold JscChart.seriesWatch
  by_cases hi : w.link.isInitialized <;> by_cases hc : w.link.chart = none <;>
    simp [hi, hc, h]

theorem optionsWatch_no_direct_engine (w : JscChart.WorldState) (v : JVal) :
    (JscChart.optionsWatch v w).engineLog = w.engineLog := by
  unfold JscChart.optionsWatch JscChart.scheduleUpdate
  by_cases hi : w.link.isInitialized <;>
    by_cases hh : some (computeHash v) = w.link.lastOptionsHash <;> simp [hi, hh]

theorem debRun_burst_inv {α : Type} (wait : Nat) (t : Nat) (a : α)
    (tr : List (Debounce.DebEv α)) (hb : Debounce.BurstFrom wait t a tr) :
    ∀ (id nid : Nat) (f : List α),
      ∃ id2 nid2,
        Debounce.debRun false wait ⟨some id, nid, [(id, t + wait, a)], f⟩ tr
          = ⟨some id2, nid2,
              [(id2, (Debounce.lastCall t a tr).1 + wait, (Debounce.lastCall t a tr).2)], f⟩ := by
  induction hb with
  | nil t a => exact fun id nid f => ⟨id, nid, rfl⟩
  | deliver t a td id' tr hlt hb ih =>
    intro id nid f
    have hstep : Debounce.debStep false wait ⟨some id, nid, [(id, t + wait, a)], f⟩
        (.deliver td id') = ⟨some id, nid, [(id, t + wait, a)], f⟩ := by
      have hn : ¬ (t + wait ≤ td) := by omega
      by_cases hid : id = id'
      · subst hid
        simp [Debounce.debStep, Debounce.debDeliver, List.find?, hn]
      · simp [Debounce.debStep, Debounce.debDeliver, List.find?, hid]
    rw [Debounce.debRun, hstep]
    simpa [Debounce.lastCall] using ih id nid f
  | call t a tn an tr hlt hb ih =>
    intro id nid f
    have hstep : Debounce.debStep false wait ⟨some id, nid, [(id, t + wait, a)], f⟩
        (.call tn an) = ⟨some nid, nid + 1, [(nid, tn + wait, an)], f⟩ := by
      simp [Debounce.debStep, Debounce.debCall, List.filter]
    rw [Debounce.debRun, hstep]
    simpa [Debounce.lastCall] using ih nid (nid + 1) f

/-! ## C1 — pending updates -/

set_option maxRecDepth 10000 in
/-- C1 (counterexample): the claim "an update requested while the state is
`Loading` or `Creating` is recorded as the single PendingUpdate … the
PendingUpdate exists only while no instance handle exists" fails on the
code.  After `loadingUpdateTrace` the second creation call has returned a
handle while the PendingUpdate recorded during its `Loading` phase is still
present (handle and PendingUpdate coexist); and in `creatingUpdateTrace` an
update requested during `Creating` (handle returned, ready callback not yet
fired) is applied to the engine immediately — `pendingUpdate` stays empty,
`isInitialized` is still false, and exactly one engine options call has
happened before `Ready`. -/
theorem pendingUpdate_claim_cex :
    ((JscChart.runEvents (JscChart.initialWorld JscChart.traceScope)
        JscChart.loadingUpdateTrace).link.chart = some 1
      ∧ (JscChart.runEvents (JscChart.initialWorld JscChart.traceScope)
          JscChart.loadingUpdateTrace).link.pendingUpdate.isSome = true)
    ∧ ((JscChart.runEvents (JscChart.initialWorld JscChart.traceScope)
          JscChart.creatingUpdateTrace).link.pendingUpdate = none
      ∧ (JscChart.runEvents (JscChart.initialWorld JscChart.traceScope)
          JscChart.creatingUpdateTrace).link.isInitialized = false
      ∧ (JscChart.runEvents (JscChart.initialWorld JscChart.traceScope)
          JscChart.creatingUpdateTrace).readyPending = some 1
      ∧ ((JscChart.runEvents (JscChart.initialWorld JscChart.traceScope)
          JscChart.creatingUpdateTrace).engineLog.filter JscChart.isOptionsCall).length = 1) := by
  refine ⟨⟨?_, ?_⟩, ?_, ?_, ?_, ?_⟩ <;>
  simp [JscChart.loadingUpdateTrace, JscChart.creatingUpdateTrace, JscChart.traceScope,
    JscChart.traceOptions, JscChart.runEvents, JscChart.step, JscChart.initialWorld,
    JscChart.initChart, JscChart.buildConfig, JscChart.wireEvents, JscChart.moduleResolvedStep,
    JscChart.readyFiredStep, JscChart.optionsWatch, JscChart.typeWatch, JscChart.timerFired,
    JscChart.updateChart, JscChart.scheduleUpdate, JscChart.cancelTimer, JscChart.factoryDestroy,
    computeHash, typeofIsObject, stringifyAux, stringifyFields, stringifyArr, jsonQuote,
    jsonEscapeChar, intDecimal, natDecimal, natDecimalAux, digitChar, commaJoin, jsToString,
    jsTruthy, strTruthy, isUndef, orEmptyObj, getField, setField, setAssoc,
    JscChart.setEventIf, mergeWithDefaults, providerDefaults, amerge, amergeFields,
    amergeElems, childBase, isObjectJS, emptyLike, JscChart.isOptionsCall]

/-- C1 (amended): an update requested while NO chart handle exists is
recorded as the single PendingUpdate — overwriting any prior one, with no
engine interaction; when the engine's ready callback fires for the current
handle, a recorded PendingUpdate is applied to the engine exactly once and
cleared, and the controller becomes `Ready`.  An update requested after the
creation call has returned a handle but before the ready callback
(`Creating`) is applied to the engine immediately rather than queued. -/
theorem pendingUpdate_record_and_consume :
    (∀ (ls : JscChart.LinkState) (cfg : JVal), ls.chart = none →
      JscChart.updateChart ls cfg = ({ ls with pendingUpdate := some cfg }, []))
    ∧ (∀ (ls : JscChart.LinkState) (h : Nat) (cfg : JVal), ls.chart = some h →
      JscChart.updateChart ls cfg = (ls, [.optionsCall h cfg]))
    ∧ (∀ (w : JscChart.WorldState) (h : Nat) (p : JVal),
        w.link.chart = some h → w.readyPending = some h → w.link.pendingUpdate = some p →
        (JscChart.step w .readyFired).link.pendingUpdate = none
        ∧ (JscChart.step w .readyFired).engineLog = w.engineLog ++ [.optionsCall h p]
        ∧ (JscChart.step w .readyFired).link.isInitialized = true
        ∧ (JscChart.step w .readyFired).readyPending = none) := by
  refine ⟨?_, ?_, ?_⟩
  · intro ls cfg hch
    simp [JscChart.updateChart, hch]
  · intro ls h cfg hch
    simp [JscChart.updateChart, hch]
  · intro w h p hch hrp hpu
    simp [JscChart.step, JscChart.readyFiredStep, hrp, hch, hpu, JscChart.updateChart]

/-- C1 (witness): the amended statement at concrete inputs — a chartless
link state records an update as pending; a link state with handle 0 applies
it directly; and a world with handle 0, its ready callback pending and a
recorded PendingUpdate consumes it exactly once on `readyFired`. -/
theorem pendingUpdate_record_and_consume_witness :
    (JscChart.updateChart { scope := {} } (.obj [])
      = ({ scope := {}, pendingUpdate := some (.obj []) }, []))
    ∧ (JscChart.updateChart { scope := {}, chart := some 0 } (.obj [])
      = ({ scope := {}, chart := some 0 }, [.optionsCall 0 (.obj [])]))
    ∧ ((JscChart.step
          ({ link := { scope := {}, chart := some 0, pendingUpdate := some (.obj []) },
             readyPending := some 0 } : JscChart.WorldState)
          .readyFired).link.pendingUpdate = none
      ∧ (JscChart.step
          ({ link := { scope := {}, chart := some 0, pendingUpdate := some (.obj []) },
             readyPending := some 0 } : JscChart.WorldState)
          .readyFired).engineLog = [] ++ [.optionsCall 0 (.obj [])]
      ∧ (JscChart.step
          ({ link := { scope := {}, chart := some 0, pendingUpdate := some (.obj []) },
             readyPending := some 0 } : JscChart.WorldState)
          .readyFired).link.isInitialized = true
      ∧ (JscChart.step
          ({ link := { scope := {}, chart := some 0, pendingUpdate := some (.obj []) },
             readyPending := some 0 } : JscChart.WorldState)
          .readyFired).readyPending = none) :=
  ⟨pendingUpdate_record_and_consume.1 _ _ rfl,
   pendingUpdate_record_and_consume.2.1 _ 0 _ rfl,
   pendingUpdate_record_and_consume.2.2 _ 0 _ rfl rfl rfl⟩

/-! ## C2 — idempotent teardown -/

/-- C2: teardown is idempotent.  Destroying the same mounted chart a second
time reproduces the same end state and performs no engine interaction; a
teardown with no chart handle performs no engine call at all and never
errors (the factory's `destroy(null)` simply returns `false`). -/
theorem teardown_idempotent (w : JscChart.WorldState) :
    JscChart.step (JscChart.step w .scopeDestroyed) .scopeDestroyed
      = JscChart.step w .scopeDestroyed
    ∧ (JscChart.step (JscChart.step w .scopeDestroyed) .scopeDestroyed).engineLog
      = (JscChart.step w .scopeDestroyed).engineLog
    ∧ (w.link.chart = none →
        (JscChart.step w .scopeDestroyed).engineLog = w.engineLog
        ∧ (JscChart.step w .scopeDestroyed).errorLog = w.errorLog
        ∧ (JscChart.step w .scopeDestroyed).uncaughtErrors = w.uncaughtErrors)
    ∧ JscChart.factoryDestroy none w.registry = (w.registry, [], false) := by
  obtain ⟨⟨sc, ci, ch, dt, ii, pu, ip, lo, ls⟩, lc, mlp, rp, at', nt, nh, reg, ea, el, er, ue⟩ := w
  refine ⟨?_, ?_, ?_, rfl⟩
  · cases ch <;>
      simp [JscChart.step, JscChart.destroyStep, JscChart.factoryDestroy, cancelTimer_idem]
  · cases ch <;>
      simp [JscChart.step, JscChart.destroyStep, JscChart.factoryDestroy, cancelTimer_idem]
  · intro h
    simp only [] at h
    subst h
    simp [JscChart.step, JscChart.destroyStep, JscChart.factoryDestroy]

/-- C2 (witness): teardown idempotence at the freshly mounted world, whose
chart handle is absent. -/
theorem teardown_idempotent_witness :
    JscChart.step (JscChart.step (JscChart.initialWorld {}) .scopeDestroyed) .scopeDestroyed
      = JscChart.step (JscChart.initialWorld {}) .scopeDestroyed
    ∧ (JscChart.step (JscChart.initialWorld {}) .scopeDestroyed).engineLog
      = (JscChart.initialWorld {}).engineLog :=
  ⟨(teardown_idempotent (JscChart.initialWorld {})).1,
   ((teardown_idempotent (JscChart.initialWorld {})).2.2.1 rfl).1⟩

/-! ## C8 — initialization failure -/

set_option maxRecDepth 10000 in
/-- C8 (counterexample): the claim "dependency-module resolution failure or
a synchronously-throwing creation call leaves the controller in `Unmounted`
(not a partial state) … no PendingUpdate dangles" fails on the code.  After
`createThrowsTrace` (Scenario D) the creation call threw: no handle exists
and one error was reported, but `initializationInProgress` is still `true`
with nothing in flight — a partial state that permanently blocks
re-initialization.  After `loadFailDanglingTrace` the module load failed
and the in-progress flag was cleared, but the PendingUpdate recorded during
the failed `Loading` is still present (it dangles). -/
theorem init_failure_partial_state_cex :
    ((JscChart.runEvents (JscChart.initialWorld JscChart.traceScope)
        JscChart.createThrowsTrace).link.initializationInProgress = true
      ∧ (JscChart.runEvents (JscChart.initialWorld JscChart.traceScope)
          JscChart.createThrowsTrace).moduleLoadPending = false
      ∧ (JscChart.runEvents (JscChart.initialWorld JscChart.traceScope)
          JscChart.createThrowsTrace).readyPending = none
      ∧ (JscChart.runEvents (JscChart.initialWorld JscChart.traceScope)
          JscChart.createThrowsTrace).link.chart = none
      ∧ (JscChart.runEvents (JscChart.initialWorld JscChart.traceScope)
          JscChart.createThrowsTrace).registry = []
      ∧ (JscChart.runEvents (JscChart.initialWorld JscChart.traceScope)
          JscChart.createThrowsTrace).errorLog = 1)
    ∧ ((JscChart.runEvents (JscChart.initialWorld JscChart.traceScope)
          JscChart.loadFailDanglingTrace).link.pendingUpdate.isSome = true
      ∧ (JscChart.runEvents (JscChart.initialWorld JscChart.traceScope)
          JscChart.loadFailDanglingTrace).link.initializationInProgress = false
      ∧ (JscChart.runEvents (JscChart.initialWorld JscChart.traceScope)
          JscChart.loadFailDanglingTrace).link.chart = none) := by
  refine ⟨⟨?_, ?_, ?_, ?_, ?_, ?_⟩, ?_, ?_, ?_⟩ <;>
  simp [JscChart.createThrowsTrace, JscChart.loadFailDanglingTrace, JscChart.traceScope,
    JscChart.traceOptions, JscChart.runEvents, JscChart.step, JscChart.initialWorld,
    JscChart.initChart, JscChart.buildConfig, JscChart.wireEvents, JscChart.moduleResolvedStep,
    JscChart.moduleFailedStep, JscChart.readyFiredStep, JscChart.optionsWatch,
    JscChart.typeWatch, JscChart.timerFired, JscChart.updateChart, JscChart.scheduleUpdate,
    JscChart.cancelTimer, JscChart.factoryDestroy, computeHash, typeofIsObject, stringifyAux,
    stringifyFields, stringifyArr, jsonQuote, jsonEscapeChar, intDecimal, natDecimal,
    natDecimalAux, digitChar, commaJoin, jsToString, jsTruthy, strTruthy, isUndef, orEmptyObj,
    getField, setField, setAssoc, JscChart.setEventIf, mergeWithDefaults, providerDefaults,
    amerge, amergeFields, amergeElems, childBase, isObjectJS, emptyLike, JscChart.isOptionsCall]

/-- C8 (amended): on module-resolution failure the in-progress guard is
cleared and exactly one error is reported, with no handle created and no
registry change — but a recorded PendingUpdate is retained, not cleared.
On a synchronously-throwing creation call no handle is registered or
half-constructed and exactly one error is reported — but the
initialization-in-progress guard remains set. -/
theorem init_failure_states :
    (∀ w : JscChart.WorldState, w.moduleLoadPending = true →
      (JscChart.step w .moduleFailed).link.initializationInProgress = false
      ∧ (JscChart.step w .moduleFailed).errorLog = w.errorLog + 1
      ∧ (JscChart.step w .moduleFailed).link.chart = w.link.chart
      ∧ (JscChart.step w .moduleFailed).link.pendingUpdate = w.link.pendingUpdate
      ∧ (JscChart.step w .moduleFailed).registry = w.registry)
    ∧ (∀ w : JscChart.WorldState, w.moduleLoadPending = true → w.elementAlive = true →
      (JscChart.step w (.moduleResolved false)).link.chart = none
      ∧ (JscChart.step w (.moduleResolved false)).registry = w.registry
      ∧ (JscChart.step w (.moduleResolved false)).readyPending = w.readyPending
      ∧ (JscChart.step w (.moduleResolved false)).errorLog = w.errorLog + 1
      ∧ (JscChart.step w (.moduleResolved false)).link.initializationInProgress
          = w.link.initializationInProgress) := by
  constructor
  · intro w h
    simp [JscChart.step, JscChart.moduleFailedStep, h]
  · intro w h he
    simp [JscChart.step, JscChart.moduleResolvedStep, h, he]

/-- C8 (witness): the amended statement at a concrete loading world. -/
theorem init_failure_states_witness :
    ((JscChart.step ({ link := { scope := {} }, moduleLoadPending := true }
        : JscChart.WorldState) .moduleFailed).link.initializationInProgress = false
      ∧ (JscChart.step ({ link := { scope := {} }, moduleLoadPending := true }
          : JscChart.WorldState) .moduleFailed).errorLog = 0 + 1)
    ∧ ((JscChart.step ({ link := { scope := {} }, moduleLoadPending := true }
          : JscChart.WorldState) (.moduleResolved false)).link.chart = none
      ∧ (JscChart.step ({ link := { scope := {} }, moduleLoadPending := true }
          : JscChart.WorldState) (.moduleResolved false)).errorLog = 0 + 1) :=
  ⟨⟨(init_failure_states.1 _ rfl).1, (init_failure_states.1 _ rfl).2.1⟩,
   ⟨(init_failure_states.2 _ rfl rfl).1, (init_failure_states.2 _ rfl rfl).2.2.2.1⟩⟩

/-! ## C9 — fingerprint gating of the watchers -/

set_option maxRecDepth 10000 in
/-- C9 (counterexample): the claim "on every change notification for a
watched binding (options, series, palette, muted) a fingerprint of the new
value is recomputed and compared … identical fingerprints never trigger an
update call" fails on the code: the palette watcher compares with strict
inequality and never consults a fingerprint.  Changing the palette binding
from the number `1` to the string "1" — two values with the same
fingerprint — triggers a direct engine update call. -/
theorem palette_watch_no_fingerprint_cex :
    computeHash (.num 1) = computeHash (.str "1")
    ∧ JVal.num 1 ≠ JVal.str "1"
    ∧ ((JscChart.runEvents (JscChart.initialWorld JscChart.traceScope)
        JscChart.paletteHashEqTrace).engineLog.filter JscChart.isOptionsCall)
      = [.optionsCall 0 (.obj [("palette", .str "1")])] := by
  refine ⟨?_, by simp, ?_⟩
  · simp [computeHash, typeofIsObject, jsToString, intDecimal, natDecimal, natDecimalAux,
      digitChar]
  · simp [JscChart.paletteHashEqTrace, JscChart.traceScope, JscChart.runEvents, JscChart.step,
      JscChart.initialWorld, JscChart.initChart, JscChart.buildConfig, JscChart.wireEvents,
      JscChart.moduleResolvedStep, JscChart.readyFiredStep, JscChart.paletteWatch, jsStrictNe,
      computeHash, typeofIsObject, stringifyAux, stringifyFields, stringifyArr, jsonQuote,
      jsonEscapeChar, intDecimal, natDecimal, natDecimalAux, digitChar, commaJoin, jsToString,
      jsTruthy, strTruthy, isUndef, orEmptyObj, getField, setField, setAssoc,
      JscChart.setEventIf, mergeWithDefaults, providerDefaults, amerge, amergeFields,
      amergeElems, childBase, isObjectJS, emptyLike, JscChart.isOptionsCall,
      JscChart.updateChart]

/-- C9 (amended): the options and series watchers recompute the fingerprint
of the new value and compare it with the cached one before any engine
update path runs: an unchanged fingerprint leaves the timers, the engine
log and the cached state untouched, and the watcher bodies themselves never
call the engine directly (the expensive path is always behind the debounce
timer).  The palette and muted watchers use strict reference inequality
instead and are not fingerprint-gated. -/
theorem hash_gate_options_series :
    (∀ (w : JscChart.WorldState) (v : JVal),
      some (computeHash v) = w.link.lastOptionsHash →
      (JscChart.optionsWatch v w).activeTimers = w.activeTimers
      ∧ (JscChart.optionsWatch v w).engineLog = w.engineLog
      ∧ (JscChart.optionsWatch v w).link.debounceTimeout = w.link.debounceTimeout
      ∧ (JscChart.optionsWatch v w).link.lastOptionsHash = w.link.lastOptionsHash)
    ∧ (∀ (w : JscChart.WorldState) (v : JVal),
      some (computeHash v) = w.link.lastSeriesHash →
      (JscChart.seriesWatch v w).activeTimers = w.activeTimers
      ∧ (JscChart.seriesWatch v w).engineLog = w.engineLog
      ∧ (JscChart.seriesWatch v w).link.debounceTimeout = w.link.debounceTimeout)
    ∧ (∀ (w : JscChart.WorldState) (v : JVal),
      (JscChart.optionsWatch v w).engineLog = w.engineLog) := by
  refine ⟨?_, ?_, ?_⟩
  · intro w v h
    obtain ⟨h1, h2, h3, h4, _⟩ := optionsWatch_hash_eq w v h
    exact ⟨h1, h2, h3, h4⟩
  · intro w v h
    exact seriesWatch_hash_eq w v h
  · intro w v
    exact optionsWatch_no_direct_engine w v

/-- C9 (witness): the amended statement at a ready world whose cached
hashes are the fingerprint of `null`, re-notified with a `null` binding. -/
theorem hash_gate_options_series_witness :
    ((JscChart.optionsWatch .jsNull
        ({ link := { scope := {}, isInitialized := true, lastOptionsHash := some "null",
                     lastSeriesHash := some "null" } } : JscChart.WorldState)).activeTimers
      = ([] : List (Nat × JscChart.TimerTask)))
    ∧ ((JscChart.seriesWatch .jsNull
        ({ link := { scope := {}, isInitialized := true, lastOptionsHash := some "null",
                     lastSeriesHash := some "null" } } : JscChart.WorldState)).engineLog
      = ([] : List JscChart.EngineCall))
    ∧ ((JscChart.optionsWatch (.num 7)
        ({ link := { scope := {}, isInitialized := true, lastOptionsHash := some "null",
                     lastSeriesHash := some "null" } } : JscChart.WorldState)).engineLog
      = ([] : List JscChart.EngineCall)) :=
  ⟨(hash_gate_options_series.1 _ .jsNull rfl).1,
   (hash_gate_options_series.2.1 _ .jsNull rfl).2.1,
   hash_gate_options_series.2.2 _ (.num 7)⟩

/-! ## C5 — non-serializable fingerprints -/

set_option maxRecDepth 10000 in
/-- C5 (counterexample): the claim "for every non-serializable input the
fingerprint function … returns a conservative always-different result — a
fingerprint that never compares equal to any previously cached fingerprint
— so such an input never suppresses updates" fails on the code: two
distinct cyclic structures both hash to "[object Object]" (the
`String(obj)` fallback), and an options change from one cyclic structure to
another is suppressed — no debounce timer is scheduled and no engine update
happens. -/
theorem computeHash_cyclic_suppresses_cex :
    computeHash (.cyclic "a") = computeHash (.cyclic "b")
    ∧ JVal.cyclic "a" ≠ JVal.cyclic "b"
    ∧ (JscChart.runEvents (JscChart.initialWorld JscChart.cyclicScope)
        JscChart.cyclicChangeTrace).activeTimers = []
    ∧ (JscChart.runEvents (JscChart.initialWorld JscChart.cyclicScope)
        JscChart.cyclicChangeTrace).link.debounceTimeout = none
    ∧ ((JscChart.runEvents (JscChart.initialWorld JscChart.cyclicScope)
        JscChart.cyclicChangeTrace).engineLog.filter JscChart.isOptionsCall) = [] := by
  refine ⟨by simp [computeHash, typeofIsObject, stringifyAux, jsToString], by simp, ?_, ?_, ?_⟩ <;>
  simp [JscChart.cyclicChangeTrace, JscChart.cyclicScope, JscChart.runEvents, JscChart.step,
    JscChart.initialWorld, JscChart.initChart, JscChart.buildConfig, JscChart.wireEvents,
    JscChart.moduleResolvedStep, JscChart.readyFiredStep, JscChart.optionsWatch,
    JscChart.scheduleUpdate, JscChart.cancelTimer, computeHash, typeofIsObject, stringifyAux,
    stringifyFields, stringifyArr, jsonQuote, jsonEscapeChar, intDecimal, natDecimal,
    natDecimalAux, digitChar, commaJoin, jsToString, jsTruthy, strTruthy, isUndef, orEmptyObj,
    getField, setField, setAssoc, JscChart.setEventIf, mergeWithDefaults, providerDefaults,
    amerge, amergeFields, amergeElems, childBase, isObjectJS, emptyLike,
    JscChart.isOptionsCall]

/-- C5 (amended): `computeHash` never throws on non-serializable input, but
the fallback is not "always different": every cyclic structure hashes to
the constant `String(obj)` rendering "[object Object]", an object with a
function-valued field hashes like the object without it
(`JSON.stringify` omits function fields without throwing), and an options
change to a cyclic value whose cached fingerprint is already
"[object Object]" is suppressed — it schedules nothing and never reaches
the engine. -/
theorem computeHash_nonserializable_fallback :
    (∀ tag : String, computeHash (.cyclic tag) = "[object Object]")
    ∧ (∀ tag : String, computeHash (.obj [("a", .func tag)]) = computeHash (.obj []))
    ∧ (∀ (w : JscChart.WorldState) (tag : String),
        w.link.lastOptionsHash = some "[object Object]" →
        (JscChart.optionsWatch (.cyclic tag) w).activeTimers = w.activeTimers
        ∧ (JscChart.optionsWatch (.cyclic tag) w).engineLog = w.engineLog
        ∧ (JscChart.optionsWatch (.cyclic tag) w).link.debounceTimeout
            = w.link.debounceTimeout) := by
  have hcy : ∀ tag : String, computeHash (.cyclic tag) = "[object Object]" := by
    intro tag
    simp [computeHash, typeofIsObject, stringifyAux, jsToString]
  refine ⟨hcy, ?_, ?_⟩
  · intro tag
    simp [computeHash, typeofIsObject, stringifyAux, stringifyFields, commaJoin]
  · intro w tag h
    have heq : some (computeHash (.cyclic tag)) = w.link.lastOptionsHash := by
      rw [hcy tag, h]
    obtain ⟨h1, h2, h3, _, _⟩ := optionsWatch_hash_eq w (.cyclic tag) heq
    exact ⟨h1, h2, h3⟩

/-- C5 (witness): the amended statement at the tag "a" and a world whose
cached options fingerprint is "[object Object]". -/
theorem computeHash_nonserializable_fallback_witness :
    computeHash (.cyclic "a") = "[object Object]"
    ∧ computeHash (.obj [("a", .func "f")]) = computeHash (.obj [])
    ∧ (JscChart.optionsWatch (.cyclic "a")
        ({ link := { scope := {}, isInitialized := true,
                     lastOptionsHash := some "[object Object]" } }
          : JscChart.WorldState)).activeTimers = [] :=
  ⟨computeHash_nonserializable_fallback.1 "a",
   computeHash_nonserializable_fallback.2.1 "f",
   (computeHash_nonserializable_fallback.2.2 _ "a" rfl).1⟩

/-! ## C7 — event wrappers after teardown -/

/-- C7 (counterexample): the claim "if the engine invokes the wrapper after
teardown of the owning chart has begun, the wrapper detects this and
silently discards the event: the caller's scope callback is never invoked
against a torn-down instance" fails on the code: `wrapCallback` contains no
such check.  With teardown already begun, an engine invocation of the
wrapper still leads to exactly one scope-callback invocation, carrying the
captured (torn-down) chart instance. -/
theorem wrapper_invoked_after_destroy_cex :
    (EventBridge.taskRun (EventBridge.wrapperInvoke (some 0) "click" (.str "evt")
        (EventBridge.destroyBegins {}))).invoked
      = [⟨.str "evt", some 0, "click", 0⟩]
    ∧ (EventBridge.taskRun (EventBridge.wrapperInvoke (some 0) "click" (.str "evt")
        (EventBridge.destroyBegins {}))).destroyed = true :=
  ⟨rfl, rfl⟩

/-- C7 (amended): the wrapper returned by `jscEventService.wrapCallback`
performs no teardown check: invoking it never calls the scope callback
synchronously (it only queues a deferred task), and when the deferred task
runs it invokes the scope callback with the captured chart payload
regardless of whether teardown has begun. -/
theorem wrapper_no_teardown_check (s : EventBridge.BridgeState) (ch : Option Nat)
    (ty : String) (e : JVal) (h : s.pending = []) :
    (EventBridge.wrapperInvoke ch ty e s).invoked = s.invoked
    ∧ (EventBridge.taskRun (EventBridge.wrapperInvoke ch ty e s)).invoked
        = s.invoked ++ [⟨e, ch, ty, s.clock⟩]
    ∧ (EventBridge.taskRun (EventBridge.wrapperInvoke ch ty e s)).destroyed = s.destroyed := by
  simp [EventBridge.taskRun, EventBridge.wrapperInvoke, h]

/-- C7 (witness): the amended statement at a destroyed bridge with an empty
task queue. -/
theorem wrapper_no_teardown_check_witness :
    (EventBridge.wrapperInvoke (some 3) "zoomed" .jsNull
        (EventBridge.destroyBegins {})).invoked = ([] : List EventBridge.Payload)
    ∧ (EventBridge.taskRun (EventBridge.wrapperInvoke (some 3) "zoomed" .jsNull
        (EventBridge.destroyBegins {}))).invoked = [] ++ [⟨.jsNull, some 3, "zoomed", 0⟩] :=
  ⟨(wrapper_no_teardown_check (EventBridge.destroyBegins {}) (some 3) "zoomed" .jsNull rfl).1,
   (wrapper_no_teardown_check (EventBridge.destroyBegins {}) (some 3) "zoomed" .jsNull rfl).2.1⟩

/-! ## C4 — the null fingerprint -/

/-- C4 (counterexample): the claim "computeHash maps null/absent input to a
distinguished fingerprint distinct from the fingerprint of any real value"
fails on the code: the real string value "null" hashes — via `String(obj)`
— to exactly the fingerprint of `null` and `undefined`. -/
theorem computeHash_null_collision_cex :
    computeHash (.str "null") = computeHash .jsNull
    ∧ computeHash (.str "null") = computeHash .undef
    ∧ JVal.str "null" ≠ .jsNull
    ∧ JVal.str "null" ≠ .undef :=
  ⟨by simp [computeHash, typeofIsObject, jsToString],
   by simp [computeHash, typeofIsObject, jsToString], by simp, by simp⟩

/-- C4 (amended): `null` and `undefined` hash to the distinguished
fingerprint "null", and that fingerprint is distinct from the fingerprint
of every real value except the string "null": a value hashes to "null"
exactly when it is `null`, `undefined`, or the four-character string
"null". -/
theorem computeHash_null_characterization (v : JVal) :
    computeHash v = "null" ↔ (v = .jsNull ∨ v = .undef ∨ v = .str "null") := by
  constructor
  · intro h
    match v with
    | .jsNull => exact Or.inl rfl
    | .undef => exact Or.inr (Or.inl rfl)
    | .str s =>
      refine Or.inr (Or.inr ?_)
      simp [computeHash, typeofIsObject, jsToString] at h
      rw [h]
    | .bool b => exact absurd h (by cases b <;> simp [computeHash, typeofIsObject, jsToString])
    | .num n =>
      exfalso
      simp [computeHash, typeofIsObject, jsToString] at h
      exact intDecimal_ne_null n h
    | .func t =>
      exfalso
      simp [computeHash, typeofIsObject, jsToString] at h
      exact function_ne_null t h
    | .cyclic t =>
      exact absurd h (by simp [computeHash, typeofIsObject, stringifyAux, jsToString])
    | .arr es =>
      exfalso
      rcases h2 : stringifyArr es with _ | parts
      · simp [computeHash, typeofIsObject, stringifyAux, h2, jsToString] at h
        exact arr_throw_join_ne_null (sizeOf es) es le_rfl h2 h
      · simp [computeHash, typeofIsObject, stringifyAux, h2] at h
        exact bracket_ne_null _ h
    | .obj fs =>
      exfalso
      rcases h2 : stringifyFields fs with _ | parts
      · simp [computeHash, typeofIsObject, stringifyAux, h2, jsToString] at h
      · simp [computeHash, typeofIsObject, stringifyAux, h2] at h
        exact brace_ne_null _ h
  · rintro (rfl | rfl | rfl) <;> simp [computeHash, typeofIsObject, jsToString]

/-! ## C3 — merge semantics for arrays -/

/-- C3 (counterexample): the claim "array-valued fields from the override
replace the base's arrays wholesale … no stale trailing entries from a
longer base array survive" fails on the code: `angular.merge` merges arrays
element by index.  `ConfigBuilder.extend` of a two-element series with a
one-element override keeps the stale trailing entry (result `[9, 2]`),
differing from the spec-modelled wholesale-replacement merge (`[9]`); the
`jscGantt` axis-config merge behaves the same way. -/
theorem merge_arrays_wholesale_cex :
    ConfigBuilder.extend (.obj [("series", .arr [.num 1, .num 2])])
        (.obj [("series", .arr [.num 9])])
      = .obj [("series", .arr [.num 9, .num 2])]
    ∧ specDeepMerge (.obj [("series", .arr [.num 1, .num 2])])
        (.obj [("series", .arr [.num 9])])
      = .obj [("series", .arr [.num 9])]
    ∧ ConfigBuilder.extend (.obj [("series", .arr [.num 1, .num 2])])
        (.obj [("series", .arr [.num 9])])
      ≠ specDeepMerge (.obj [("series", .arr [.num 1, .num 2])])
        (.obj [("series", .arr [.num 9])])
    ∧ getField (JscGantt.buildConfig
        { options := .obj [("xAxis", .obj [("ticks", .arr [.num 1, .num 2])])],
          xAxisConfig := .obj [("ticks", .arr [.num 9])] }) "xAxis"
      = .obj [("ticks", .arr [.num 9, .num 2])] := by
  refine ⟨?_, ?_, ?_, ?_⟩
  · simp [ConfigBuilder.extend, amerge, amergeFields, amergeElems, getField, setField,
      setAssoc, childBase, isObjectJS, emptyLike, List.lookup, setPropIdx, listSetPad]
  · simp [specDeepMerge, specMergeInto, specMergeField]
  · intro h
    rw [show ConfigBuilder.extend (.obj [("series", .arr [.num 1, .num 2])])
          (.obj [("series", .arr [.num 9])]) = .obj [("series", .arr [.num 9, .num 2])] by
        simp [ConfigBuilder.extend, amerge, amergeFields, amergeElems, getField, setField,
          setAssoc, childBase, isObjectJS, emptyLike, List.lookup, setPropIdx, listSetPad],
      show specDeepMerge (.obj [("series", .arr [.num 1, .num 2])])
          (.obj [("series", .arr [.num 9])]) = .obj [("series", .arr [.num 9])] by
        simp [specDeepMerge, specMergeInto, specMergeField]] at h
    simp at h
  · simp [JscGantt.buildConfig, JscGantt.wireEvents, JscChart.setEventIf, amerge,
      amergeFields, amergeElems, getField, setField, setAssoc, childBase, isObjectJS,
      emptyLike, List.lookup, setPropIdx, listSetPad, jsTruthy, strTruthy, isUndef,
      orEmptyObj]

/-- C3 (amended): the configuration merge is a deep merge in which child
objects are recursively combined with the override winning per leaf key,
but array-valued fields are merged element by index — never concatenated —
so entry `i` of the override overwrites entry `i` of the base and the
trailing entries of a longer base array are retained: for flat (non-object
element) arrays the merged field is exactly the override followed by the
leftover tail of the base. -/
theorem merge_arrays_element_indexed (k : String) (bs os : List JVal)
    (h : ∀ e ∈ os, isObjectJS e = false) :
    ConfigBuilder.extend (.obj [(k, .arr bs)]) (.obj [(k, .arr os)])
      = .obj [(k, .arr (os ++ bs.drop os.length))]
    ∧ ConfigBuilder.extend (.obj [("a", .num 1), ("b", .obj [("x", .num 1)])])
        (.obj [("b", .obj [("x", .num 2), ("y", .num 3)])])
      = .obj [("a", .num 1), ("b", .obj [("x", .num 2), ("y", .num 3)])] := by
  constructor
  · unfold ConfigBuilder.extend
    rw [amerge, amergeFields, amergeFields]
    have h1 : getField (JVal.obj [(k, JVal.arr bs)]) k = JVal.arr bs := by
      simp [getField, List.lookup]
    have h2 : isObjectJS (JVal.arr os) = true := rfl
    have h3 : childBase (JVal.arr bs) (JVal.arr os) = JVal.arr bs := rfl
    rw [h2]
    simp only [if_true, h1, h3]
    rw [amerge, amergeElems_flat os bs 0 h, overwriteAt_zero]
    simp [setField, setAssoc]
  · simp [ConfigBuilder.extend, amerge, amergeFields, amergeElems, getField, setField,
      setAssoc, childBase, isObjectJS, emptyLike, List.lookup]

/-- C3 (witness): the amended statement at the series key with base
`[1, 2]` and override `[9]`. -/
theorem merge_arrays_element_indexed_witness :
    (∀ e ∈ [JVal.num 9], isObjectJS e = false)
    ∧ ConfigBuilder.extend (.obj [("series", .arr [.num 1, .num 2])])
        (.obj [("series", .arr [.num 9])])
      = .obj [("series", .arr ([.num 9] ++ [JVal.num 1, JVal.num 2].drop 1))] :=
  ⟨by decide,
   (merge_arrays_element_indexed "series" [.num 1, .num 2] [.num 9] (by decide)).1⟩

/-! ## C6 — debounce coalescing -/

/-- C6: given a burst of schedule calls on one update stream, each arriving
strictly within the debounce delay of the previous (and any timer-service
delivery attempts happening before the pending deadline), nothing fires
during the burst; one single timer survives, holding the arguments of the
LAST call, and delivering it at or after its deadline invokes the callback
exactly once with those arguments.  Every call cancels the pending prior
timer before scheduling the new one — both in `jscPerformance.debounce`
(trailing mode) and in the `jscChart` options watcher's `scheduleUpdate`. -/
theorem debounce_burst_coalesces {α : Type} (wait t1 : Nat) (a1 : α)
    (tr : List (Debounce.DebEv α)) (hb : Debounce.BurstFrom wait t1 a1 tr) :
    (Debounce.debRun false wait (Debounce.debCall false wait t1 a1 ⟨none, 0, [], []⟩) tr).fired
      = []
    ∧ (∃ id,
        (Debounce.debRun false wait
          (Debounce.debCall false wait t1 a1 ⟨none, 0, [], []⟩) tr).timeout = some id
        ∧ ∀ tf, (Debounce.lastCall t1 a1 tr).1 + wait ≤ tf →
            (Debounce.debDeliver false tf id
              (Debounce.debRun false wait
                (Debounce.debCall false wait t1 a1 ⟨none, 0, [], []⟩) tr)).fired
              = [(Debounce.lastCall t1 a1 tr).2])
    ∧ (∀ (s : Debounce.DebState α) (t : Nat) (args : α) (oldId : Nat),
        s.timeout = some oldId →
        (Debounce.debCall false wait t args s).active
          = (s.active.filter (fun x => x.1 ≠ oldId)) ++ [(s.nextId, t + wait, args)])
    ∧ (∀ (w : JscChart.WorldState) (v : JVal) (id : Nat),
        w.link.debounceTimeout = some id → w.link.isInitialized = true →
        ¬ some (computeHash v) = w.link.lastOptionsHash →
        (JscChart.optionsWatch v w).activeTimers
          = (w.activeTimers.filter (fun x => x.1 ≠ id)) ++ [(w.nextTimer, .updateTask)]) := by
  have hinit : Debounce.debCall false wait t1 a1 (⟨none, 0, [], []⟩ : Debounce.DebState α)
      = ⟨some 0, 1, [(0, t1 + wait, a1)], []⟩ := rfl
  obtain ⟨id2, nid2, hrun⟩ := debRun_burst_inv wait t1 a1 tr hb 0 1 []
  rw [hinit, hrun]
  refine ⟨rfl, ⟨id2, rfl, ?_⟩, ?_, ?_⟩
  · intro tf htf
    simp [Debounce.debDeliver, List.find?, htf]
  · intro s t args oldId hto
    simp [Debounce.debCall, hto]
  · intro w v id hdt hi hh
    simp [JscChart.optionsWatch, JscChart.scheduleUpdate, JscChart.cancelTimer, hi, hh, hdt]

/-- C6 (witness): a two-call burst at times 0 and 50 with a 100ms delay:
the burst hypothesis holds and nothing has fired when the burst ends. -/
theorem debounce_burst_coalesces_witness :
    Debounce.BurstFrom 100 0 (1 : Nat) [.call 50 2]
    ∧ (Debounce.debRun false 100 (Debounce.debCall false 100 0 (1 : Nat) ⟨none, 0, [], []⟩)
        [.call 50 2]).fired = [] := by
  have hb : Debounce.BurstFrom 100 0 (1 : Nat) [.call 50 2] :=
    Debounce.BurstFrom.call 0 1 50 2 []
      (show (50 : Nat) < 0 + 100 by omega) (Debounce.BurstFrom.nil 50 2)
  exact ⟨hb, (debounce_burst_coalesces 100 0 (1 : Nat) [.call 50 2] hb).1⟩


/-! ## C10 — forced chart types -/

/-- C10: every configuration built by a specialized chart directive has its
`type` field forced to that directive's fixed chart type — `'gantt'`,
`'organizational'` (with `' horizontal'` appended exactly when the
orientation attribute is `'horizontal'`), `'calendar'` (likewise), and
`'map'` — overwriting any `type` supplied in the caller's options object
(assumed to be an object or falsy; a truthy primitive would make the
assignment throw in strict mode).  `buildConfig` is the single config
producer used both at creation and on every rebuild. -/
theorem forced_chart_type :
    (∀ sc : JscGantt.GanttScope,
      (∃ fs, sc.options = .obj fs) ∨ jsTruthy sc.options = false →
      getField (JscGantt.buildConfig sc) "type" = .str "gantt")
    ∧ (∀ sc : JscOrgChart.OrgScope,
      (∃ fs, sc.options = .obj fs) ∨ jsTruthy sc.options = false →
      getField (JscOrgChart.buildConfig sc) "type"
        = .str ("organizational"
            ++ (if sc.orientation = some "horizontal" then " horizontal" else "")))
    ∧ (∀ sc : JscCalendar.CalendarScope,
      (∃ fs, sc.options = .obj fs) ∨ jsTruthy sc.options = false →
      getField (JscCalendar.buildConfig sc) "type"
        = .str ("calendar"
            ++ (if sc.orientation = some "horizontal" then " horizontal" else "")))
    ∧ (∀ sc : JscMap.MapScope,
      (∃ fs, sc.options = .obj fs) ∨ jsTruthy sc.options = false →
      getField (JscMap.buildConfig sc) "type" = .str "map") := by
  refine ⟨?_, ?_, ?_, ?_⟩
  · intro sc hopt
    have hbase : getField
        (setField (if jsTruthy sc.options then sc.options else .obj []) "type" (.str "gantt"))
        "type" = .str "gantt" := by
      rcases hopt with ⟨fs, hfs⟩ | hfs
      · rw [hfs]
        by_cases ht : jsTruthy (JVal.obj fs) <;> simp [ht, getField_setField_self_obj]
      · simp [hfs, getField_setField_self_obj]
    simp [JscGantt.buildConfig, JscGantt.wireEvents, JscChart.setEventIf, getField_ite,
      getTypeField_setField, ite_self, hbase]
  · intro sc hopt
    have hbase : getField
        (setField (if jsTruthy sc.options then sc.options else .obj []) "type"
          (.str ("organizational"
            ++ (if sc.orientation = some "horizontal" then " horizontal" else ""))))
        "type" = .str ("organizational"
            ++ (if sc.orientation = some "horizontal" then " horizontal" else "")) := by
      rcases hopt with ⟨fs, hfs⟩ | hfs
      · rw [hfs]
        by_cases ht : jsTruthy (JVal.obj fs) <;> simp [ht, getField_setField_self_obj]
      · simp [hfs, getField_setField_self_obj]
    simp only [JscOrgChart.buildConfig]
    simp [JscOrgChart.wireEvents, JscChart.setEventIf, getField_ite, getTypeField_setField,
      ite_self, hbase]
  · intro sc hopt
    have hbase : getField
        (setField (if jsTruthy sc.options then sc.options else .obj []) "type"
          (.str ("calendar"
            ++ (if sc.orientation = some "horizontal" then " horizontal" else ""))))
        "type" = .str ("calendar"
            ++ (if sc.orientation = some "horizontal" then " horizontal" else "")) := by
      rcases hopt with ⟨fs, hfs⟩ | hfs
      · rw [hfs]
        by_cases ht : jsTruthy (JVal.obj fs) <;> simp [ht, getField_setField_self_obj]
      · simp [hfs, getField_setField_self_obj]
    simp only [JscCalendar.buildConfig]
    simp [JscCalendar.wireEvents, JscChart.setEventIf, getField_ite, getTypeField_setField,
      ite_self, hbase]
  · intro sc hopt
    have hbase : getField
        (setField (if jsTruthy sc.options then sc.options else .obj []) "type" (.str "map"))
        "type" = .str "map" := by
      rcases hopt with ⟨fs, hfs⟩ | hfs
      · rw [hfs]
        by_cases ht : jsTruthy (JVal.obj fs) <;> simp [ht, getField_setField_self_obj]
      · simp [hfs, getField_setField_self_obj]
    simp [JscMap.buildConfig, JscMap.wireEvents, JscChart.setEventIf, getField_ite,
      getTypeField_setField, ite_self, hbase]

/-- C10 (witness): forced types at concrete scopes — a gantt scope whose
caller options try to smuggle `type: "pie"`, a horizontal org chart, a
default calendar, and a default map. -/
theorem forced_chart_type_witness :
    getField (JscGantt.buildConfig { options := .obj [("type", .str "pie")] }) "type"
      = .str "gantt"
    ∧ getField (JscOrgChart.buildConfig { orientation := some "horizontal" }) "type"
      = .str "organizational horizontal"
    ∧ getField (JscCalendar.buildConfig {}) "type" = .str "calendar"
    ∧ getField (JscMap.buildConfig {}) "type" = .str "map" :=
  ⟨forced_chart_type.1 _ (Or.inl ⟨_, rfl⟩),
   forced_chart_type.2.1 { orientation := some "horizontal" } (Or.inr rfl),
   forced_chart_type.2.2.1 {} (Or.inr rfl),
   forced_chart_type.2.2.2 {} (Or.inr rfl)⟩
